import Mathlib

/-!
Verification of the conversational-session and prompt-orchestration core of
the Piribot pregnancy-support chatbot.

The definitions below are a shallow embedding of the Python sources:
  src/config/settings.py, src/bot/language.py, src/bot/prompts.py,
  src/bot/gemini_client.py, src/bot/telegram_bot.py.

Python strings are modelled as Lean `String` (operating on `String.data`,
the list of code points, which matches Python's code-point view of `str`);
Python string methods used by the code (`strip`, `lower`, `in`,
`textwrap.dedent`, `"\n".join`) are re-implemented character by character
below.  `str.lower` is modelled with the ASCII `Char.toLower` (the
configured keywords and inputs exercised here are not affected by
non-ASCII case folding).  JSON dictionaries keyed by language code are
modelled as association lists over the closed `Lang` type; a present
per-language entry models a non-empty JSON object (Python's `or` would
also treat an empty `{}` value as missing, which does not arise for
well-formed data files).  The generative backend is an oracle value
`Option String` standing for `response.text` of the single
`generate_content` call (`none` covers both a raised exception and a
missing text field).
-/

namespace Piribot

/-- Python `str.isspace` characters relevant to `str.strip()` (ASCII range;
the modelled texts contain no exotic Unicode whitespace). -/
def isPySpace (c : Char) : Bool :=
  c = ' ' || c = '\t' || c = '\n' || c = '\r' || c = '\x0b' || c = '\x0c'

/-- Strip trailing whitespace from a character list (helper for `strip()`). -/
def rstripChars (l : List Char) : List Char :=
  (l.reverse.dropWhile isPySpace).reverse

/-- Python `str.strip()` on the character list. -/
def stripChars (l : List Char) : List Char :=
  rstripChars (l.dropWhile isPySpace)

/-- Python `str.strip()`. -/
def pyStrip (s : String) : String :=
  ⟨stripChars s.data⟩

/-- Python `str.lower()` (ASCII case folding, see the header note). -/
def pyLower (s : String) : String :=
  ⟨s.data.map Char.toLower⟩

/-- Contiguous-sublist test: `listContains hay needle` is true when `needle`
occurs contiguously inside `hay`.  This is Python's `needle in hay`. -/
def listContains : List Char → List Char → Bool
  | hay, needle =>
    needle.isPrefixOf hay ||
      match hay with
      | [] => false
      | _ :: t => listContains t needle

/-- Python `needle in hay` on strings. -/
def pyContains (hay needle : String) : Bool :=
  listContains hay.data needle.data

/-- Python `hay.endswith (needle)`, used to state the "ends with the
disclaimer" part of the spec. -/
def pyEndsWith (hay needle : String) : Bool :=
  needle.data.isSuffixOf hay.data

/-- Split a character list at every newline; `splitNl l` always returns one
segment more than the number of newlines in `l` (Python
`text.split('\n')`). -/
def splitNl : List Char → List (List Char)
  | [] => [[]]
  | c :: rest =>
    if c = '\n' then [] :: splitNl rest
    else
      match splitNl rest with
      | [] => [[c]]
      | l :: ls => (c :: l) :: ls

/-- Inverse of `splitNl`: re-join segments with newlines. -/
def joinNl : List (List Char) → List Char
  | [] => []
  | [l] => l
  | l :: ls => l ++ '\n' :: joinNl ls

/-- Python `"\n".join` on strings. -/
def joinLines : List String → String
  | [] => ""
  | [s] => s
  | s :: ss => s ++ "\n" ++ joinLines ss

/-- The indentation characters considered by `textwrap.dedent` (its
`[ \t]` regular-expression class). -/
def isIndentChar (c : Char) : Bool :=
  c = ' ' || c = '\t'

/-- `textwrap.dedent` first normalizes lines consisting solely of
whitespace to empty lines (its `^[ \t]+$ → ''` substitution). -/
def normSeg (l : List Char) : List Char :=
  if !l.isEmpty && l.all isIndentChar then [] else l

/-- Leading whitespace of one line, as matched by `dedent`'s
`(^[ \t]*)(?:[^ \t\n])` regular expression. -/
def segIndent (l : List Char) : List Char :=
  l.takeWhile isIndentChar

/-- Longest common prefix of two indentation strings (the net effect of the
margin-update loop inside `textwrap.dedent`). -/
def commonIndent : List Char → List Char → List Char
  | a :: as, b :: bs => if a = b then a :: commonIndent as bs else []
  | _, _ => []

/-- The margin computed by `textwrap.dedent` over the (already normalized)
lines: the longest common leading whitespace of the non-empty ones. -/
def dedentMargin (segs : List (List Char)) : List Char :=
  match (segs.filter (fun l => !l.isEmpty)).map segIndent with
  | [] => ([] : List Char)
  | i :: is => is.foldl commonIndent i

/-- `textwrap.dedent` on a character list: normalize whitespace-only lines,
compute the common leading-whitespace margin of all non-empty lines, and
remove it from the start of every line when it is non-empty. -/
def dedentChars (text : List Char) : List Char :=
  let segs := (splitNl text).map normSeg
  let margin := dedentMargin segs
  if margin.isEmpty then joinNl segs
  else joinNl (segs.map (fun l => if margin.isPrefixOf l then l.drop margin.length else l))

/-- Python `textwrap.dedent`. -/
def pydedent (s : String) : String :=
  ⟨dedentChars s.data⟩

/-- Python truthiness of an `Optional[str]`: `None` and `""` are falsy. -/
def pyTruthy (o : Option String) : Bool :=
  !((o.getD "") == "")

/-- Python slice `l[-n:]`: the last `n` elements (all of `l` when it is
shorter). -/
def lastN (n : Nat) (l : List α) : List α :=
  l.drop (l.length - n)

/-- The closed set of language codes (`LanguageCode` in
src/config/settings.py: `Literal["es", "qu", "shp"]`). -/
inductive Lang
  | es
  | qu
  | shp
deriving DecidableEq

/-- The string value of a language code, as interpolated by the f-strings
(`{language}` in src/bot/gemini_client.py). -/
def langStr : Lang → String
  | Lang.es => "es"
  | Lang.qu => "qu"
  | Lang.shp => "shp"

/-- Static message set per language; see `MESSAGES` below. -/
structure MessageSet where
  language_set : String
  disclaimer : String
  short_disclaimer : String
deriving DecidableEq

/-- First content line of the dedented base prompt. -/
def eresLine : String :=
  "Eres Piribot, un chatbot de acompañamiento para mujeres embarazadas en Perú."

/-- Second content line of the dedented base prompt. -/
def tuLine : String :=
  "Tu tarea es brindar:"

/-- Last content line of the dedented base prompt. -/
def finalContentLine : String :=
  "  también saluda."

/-- The lines of the f-string template of `base` in `build_system_prompt`
(src/bot/prompts.py lines 32-86), in order, with the two `lang_label`
substitution points made explicit; the template itself is their
`joinLines` (the literal split at its newlines). -/
def btLines (lang_label : String) : List String :=
  ["",
   "        Eres Piribot, un chatbot de acompañamiento para mujeres embarazadas en Perú.",
   "        Tu tarea es brindar:",
   "        - Información general sobre el embarazo.",
   "        - Acompañamiento emocional y contención.",
   "        - Orientaciones generales sobre autocuidado y cuándo acudir a un servicio de salud.",
   "",
   "        Reglas éticas y de seguridad (OBLIGATORIAS):",
   "        1. NUNCA des diagnósticos médicos.",
   "        2. NUNCA indiques tratamientos médicos concretos, dosis de medicamentos ni esquemas de medicación.",
   "        3. NUNCA pidas ni almacenes datos personales (nombre completo, DNI, dirección, teléfono, etc.).",
   "        4. Si la pregunta es muy específica sobre una enfermedad, resultado de examen, medicamento o tratamiento,",
   "           responde de forma general y aclara que la persona debe consultar con una profesional o profesional de salud.",
   "        5. Si la situación podría ser urgente (sangrado, dolor muy fuerte, fiebre, pérdida de líquido, convulsiones,",
   "           no sentir los movimientos del bebé, dificultad para respirar, desmayo, etc.),",
   "           recomienda con claridad acudir de inmediato a un centro de salud u hospital.",
   "        6. Si la persona comparte resultados de exámenes (por texto o imagen), puedes:",
   "           - Explicar de forma general qué tipo de examen es y qué suele medir.",
   "           - Usar los rangos de referencia que aparezcan en el propio resultado para decir si el valor",
   "             está dentro o fuera de ese rango (por ejemplo: “este valor está dentro del rango de referencia",
   "             que muestra tu examen”).",
   "           - NO debes decir que la persona está sana o enferma, ni dar diagnósticos.",
   "           - Siempre aclara que los resultados deben ser revisados por una profesional o un profesional de salud.",
   "        7. Usa siempre un tono respetuoso, cálido, empático, intercultural y no técnico.",
   "        8. Evita tecnicismos. Explica con palabras sencillas, frases cortas y párrafos breves.",
   "        9. Nunca prometas curación ni des garantías de resultados.",
   "        10. Siempre incluye, al final de la respuesta, un recordatorio de que Piribot no reemplaza",
   "           a una profesional ni a un profesional de salud.",
   "        11. Si la pregunta o el contenido de la conversación se alejan del embarazo, la salud materna,",
   "            el bebé o el bienestar emocional relacionado, explica amablemente que tu función es solo",
   "            acompañar en temas de embarazo y que no puedes responder sobre otros temas.",
   "",
   "        Reglas de idioma:",
   "        - Responde SIEMPRE en el idioma elegido por la persona: " ++ lang_label ++ ".",
   "        - Si el mensaje contiene mezcla de idiomas, prioriza " ++ lang_label ++ ", pero puedes incluir",
   "          palabras de apoyo en otro idioma solo si ayudan a la comprensión.",
   "",
   "        Uso del historial:",
   "        - Ten en cuenta los mensajes anteriores de la conversación para mantener la coherencia",
   "          (por ejemplo, cómo se siente, qué ya se explicó).",
   "        - No repitas toda la historia en cada respuesta; solo usa lo necesario.",
   "",
   "        Formato de respuesta:",
   "        - Usa párrafos cortos.",
   "        - Lenguaje sencillo, cercano y empático.",
   "        - Puedes usar viñetas simples cuando ayuden a organizar la información.",
   "        - No uses respuestas extremadamente largas; prioriza la claridad.",
   "        - Intenta responder en no más de 3 párrafos cortos o su equivalente en viñetas",
   "          (alrededor de 150–200 palabras como máximo).",
   "        - No comiences cada respuesta con saludos como \"Hola\" o \"Buenas tardes\".",
   "          Solo es apropiado saludar brevemente al inicio de la conversación si la persona",
   "          también saluda.",
   "        "]

/-- The f-string template of `base` in `build_system_prompt`. -/
def baseTemplate (lang_label : String) : String :=
  joinLines (btLines lang_label)

/-- Lines 4 .. n-2 of `btDedented` below. -/
def btDedMid (lang_label : String) : List String :=
  ["- Información general sobre el embarazo.",
   "- Acompañamiento emocional y contención.",
   "- Orientaciones generales sobre autocuidado y cuándo acudir a un servicio de salud.",
   "",
   "Reglas éticas y de seguridad (OBLIGATORIAS):",
   "1. NUNCA des diagnósticos médicos.",
   "2. NUNCA indiques tratamientos médicos concretos, dosis de medicamentos ni esquemas de medicación.",
   "3. NUNCA pidas ni almacenes datos personales (nombre completo, DNI, dirección, teléfono, etc.).",
   "4. Si la pregunta es muy específica sobre una enfermedad, resultado de examen, medicamento o tratamiento,",
   "   responde de forma general y aclara que la persona debe consultar con una profesional o profesional de salud.",
   "5. Si la situación podría ser urgente (sangrado, dolor muy fuerte, fiebre, pérdida de líquido, convulsiones,",
   "   no sentir los movimientos del bebé, dificultad para respirar, desmayo, etc.),",
   "   recomienda con claridad acudir de inmediato a un centro de salud u hospital.",
   "6. Si la persona comparte resultados de exámenes (por texto o imagen), puedes:",
   "   - Explicar de forma general qué tipo de examen es y qué suele medir.",
   "   - Usar los rangos de referencia que aparezcan en el propio resultado para decir si el valor",
   "     está dentro o fuera de ese rango (por ejemplo: “este valor está dentro del rango de referencia",
   "     que muestra tu examen”).",
   "   - NO debes decir que la persona está sana o enferma, ni dar diagnósticos.",
   "   - Siempre aclara que los resultados deben ser revisados por una profesional o un profesional de salud.",
   "7. Usa siempre un tono respetuoso, cálido, empático, intercultural y no técnico.",
   "8. Evita tecnicismos. Explica con palabras sencillas, frases cortas y párrafos breves.",
   "9. Nunca prometas curación ni des garantías de resultados.",
   "10. Siempre incluye, al final de la respuesta, un recordatorio de que Piribot no reemplaza",
   "   a una profesional ni a un profesional de salud.",
   "11. Si la pregunta o el contenido de la conversación se alejan del embarazo, la salud materna,",
   "    el bebé o el bienestar emocional relacionado, explica amablemente que tu función es solo",
   "    acompañar en temas de embarazo y que no puedes responder sobre otros temas.",
   "",
   "Reglas de idioma:",
   "- Responde SIEMPRE en el idioma elegido por la persona: " ++ lang_label ++ ".",
   "- Si el mensaje contiene mezcla de idiomas, prioriza " ++ lang_label ++ ", pero puedes incluir",
   "  palabras de apoyo en otro idioma solo si ayudan a la comprensión.",
   "",
   "Uso del historial:",
   "- Ten en cuenta los mensajes anteriores de la conversación para mantener la coherencia",
   "  (por ejemplo, cómo se siente, qué ya se explicó).",
   "- No repitas toda la historia en cada respuesta; solo usa lo necesario.",
   "",
   "Formato de respuesta:",
   "- Usa párrafos cortos.",
   "- Lenguaje sencillo, cercano y empático.",
   "- Puedes usar viñetas simples cuando ayuden a organizar la información.",
   "- No uses respuestas extremadamente largas; prioriza la claridad.",
   "- Intenta responder en no más de 3 párrafos cortos o su equivalente en viñetas",
   "  (alrededor de 150–200 palabras como máximo).",
   "- No comiences cada respuesta con saludos como \"Hola\" o \"Buenas tardes\".",
   "  Solo es apropiado saludar brevemente al inicio de la conversación si la persona"]

/-- The lines of `dedent (baseTemplate lang_label)`: whitespace-only
lines normalized to empty and the common 8-space margin removed. -/
def btDedented (lang_label : String) : List String :=
  "" :: eresLine :: tuLine :: (btDedMid lang_label ++ [finalContentLine, ""])

/-- The raw literal of the `Contexto adicional` block appended when `alert_hint` is true (src/bot/prompts.py lines 92-102), before `dedent`/`strip` are applied to it. -/
def alertBlockTemplate : String :=
  "\n\n            Contexto adicional:\n            - Se ha detectado que el mensaje de la persona puede contener una posible señal de alarma\n              durante el embarazo (por ejemplo, sangrado, dolor muy fuerte, fiebre, convulsiones,\n              no sentir al bebé, etc.).\n            - Refuerza con claridad la recomendación de acudir inmediatamente a un centro de salud u hospital,\n              sin generar pánico pero sin minimizar el riesgo.\n            "

/-- Table `LANG_LABELS` (src/bot/language.py). -/
def LANG_LABELS : Lang → String
  | Lang.es => "Español"
  | Lang.qu => "Quechua"
  | Lang.shp => "Shipibo-Konibo"

/-- The entries of `MESSAGES` (src/bot/language.py) read by the modelled
code paths: `language_set` (language confirmation), `disclaimer` (full
disclaimer) and `short_disclaimer`.  The remaining keys (`welcome`,
`choose_language`, `help`, `urgent_alert_prefix`, `urgent_alert_suffix`,
`fallback_error`) are only read by the /start, /help and /language
handlers, which are not part of the claims. -/
def MESSAGES : Lang → MessageSet
  | Lang.es =>
    { language_set := "Perfecto, conversaremos en Español 🇵🇪."
      disclaimer := "⚠️ *Importante*\nPiribot no reemplaza a una profesional ni a un profesional de salud. Solo brinda información general y acompañamiento emocional. Si tienes una urgencia, dolor muy fuerte, sangrado, fiebre o te sientes muy mal, acude de inmediato al centro de salud u hospital más cercano."
      short_disclaimer := "Piribot no reemplaza a una profesional ni a un profesional de salud; solo brinda información general y acompañamiento emocional." }
  | Lang.qu =>
    { language_set := "Allinmi, Quechua simipi rimarisunchis 🇵🇪."
      disclaimer := "⚠️ *Sumaq yuyay*\nPiribot mana doctor ni enfermera hina kanchu. General willakuyta sapallan churin, manam diagnósticota churichu. Sut\u0027iykita, sinchilla nanayta, yawarnillayta, q\u0027omer nanayta utaq aswan mana allin kasqaykita tiyanqa, chayqa utaqmi aswan utqaylla hampikamayuq wasiman risqayki."
      short_disclaimer := "Piribot mana doctor ni enfermera hina kanchu; willakuy general sapallan churin." }
  | Lang.shp =>
    { language_set := "Jakon, Shipibo-Konibo jaisra ikinbo jaskaraon iki 🇵🇪."
      disclaimer := "⚠️ *Jakon jaskaraon*\nPiribot mana meraya ni doctor jai, ira jaskaraon willaibo jakon oraonbo ani.\nNon jakon shinanti, jatibi jaskaraon wesna, yawar íbo, jaskaraon jato wesnati shinanti, jawen nete centro de salud rabi o hospital rabi jakanai."
      short_disclaimer := "Piribot mana doctor ni meraya jai; jakon información ja ikinbo jai onanya jaskaraon." }


/-- Inversion of `LANG_LABELS` (`LANG_CODES_BY_LABEL` in
src/bot/language.py): maps a keyboard label back to its language code. -/
def LANG_CODES_BY_LABEL (label : String) : Option Lang :=
  if label = "Espa\u00f1ol" then some Lang.es
  else if label = "Quechua" then some Lang.qu
  else if label = "Shipibo-Konibo" then some Lang.shp
  else none

/-- Function `get_disclaimer` (src/bot/language.py): the full medical
disclaimer.  `MESSAGES.get(lang) or MESSAGES["es"]` never falls back here
because `Lang` is the closed code set and `MESSAGES` is total on it. -/
def get_disclaimer (lang : Lang) : String :=
  (MESSAGES lang).disclaimer

/-- Function `get_short_disclaimer` (src/bot/language.py). -/
def get_short_disclaimer (lang : Lang) : String :=
  (MESSAGES lang).short_disclaimer

/-- One Q/A entry of the FAQ table (`data/faq.json`, read by
`_load_faq_examples` in src/bot/gemini_client.py). -/
structure FaqItem where
  question : String
  answer : String
deriving DecidableEq

/-- The loaded FAQ table `_FAQ_DATA`: language-keyed lists of Q/A entries.
The empty list models both a missing file and a load error. -/
abbrev FaqConfig := List (Lang × List FaqItem)

/-- Python `dict.get` on the FAQ table. -/
def faqLookup : FaqConfig → Lang → Option (List FaqItem)
  | [], _ => none
  | (k, v) :: rest, l => if k = l then some v else faqLookup rest l

/-- Function `_build_faq_text` (src/bot/gemini_client.py lines 47-71):
format at most three Q/A examples for the prompt.  The `or` fallback to
`"es"` fires when the language has no entry or an empty entry (Python list
truthiness).  `faqRender` is the body of its example loop: skip an entry
whose stripped question or answer is empty, else render it. -/
def faqRender (item : FaqItem) : Option String :=
  let q := pyStrip item.question
  let a := pyStrip item.answer
  if q == "" || a == "" then none
  else some ("- Pregunta: " ++ q ++ "\n  Respuesta: " ++ a)

def _build_faq_text (faq : FaqConfig) (language : Lang) : Option String :=
  let lang_data :=
    if ((faqLookup faq language).getD []).isEmpty then faqLookup faq Lang.es
    else faqLookup faq language
  match lang_data with
  | none => none
  | some items =>
    if items.isEmpty then none
    else
      let examples := (items.take 3).filterMap faqRender
      if examples.isEmpty then none else some (joinLines examples)

/-- Per-language entry of the alert table (`data/alerts.json`, read by
`_load_alerts_config` in src/bot/telegram_bot.py): `lang_cfg.get("keywords", [])`
and `lang_cfg.get("message", "")` with their defaults already applied. -/
structure AlertLangCfg where
  keywords : List String
  message : String
deriving DecidableEq

/-- The loaded alert table `_ALERTS_CONFIG`; the empty list models both a
missing `alerts.json` and a load error (both yield `{}`). -/
abbrev AlertsConfig := List (Lang × AlertLangCfg)

/-- Python `dict.get` on the alert table. -/
def alertsLookup : AlertsConfig → Lang → Option AlertLangCfg
  | [], _ => none
  | (k, v) :: rest, l => if k = l then some v else alertsLookup rest l

/-- The effective alert entry: the session language's, else the
hard-coded `"es"` one (the `or` of `_detect_alert_message`). -/
def effAlertEntry (cfg : AlertsConfig) (language : Lang) : Option AlertLangCfg :=
  match alertsLookup cfg language with
  | some c => some c
  | none => alertsLookup cfg Lang.es

/-- The keyword loop of `_detect_alert_message`: return `alert_message` on
the first keyword whose lowercase form occurs in the lowercased text. -/
def detectLoop (alert_message : String) (text_lower : String) : List String → Option String
  | [] => none
  | kw :: rest =>
    if pyContains text_lower (pyLower kw) then some alert_message
    else detectLoop alert_message text_lower rest

/-- Function `_detect_alert_message` (src/bot/telegram_bot.py lines 72-100):
case-insensitive substring scan of the message against the keyword list of
the session language, falling back to the hard-coded `"es"` entry when the
language has none; `None` when no table was loaded or nothing matches. -/
def _detect_alert_message (cfg : AlertsConfig) (text : String) (language : Lang) :
    Option String :=
  if cfg.isEmpty then none
  else
    match effAlertEntry cfg language with
    | none => none
    | some lang_cfg => detectLoop lang_cfg.message (pyLower text) lang_cfg.keywords

/-- The `Contexto adicional` block appended by `build_system_prompt` when
`alert_hint` is true: `dedent(...).strip()` of its raw literal. -/
def alertContextBlock : String :=
  pyStrip (pydedent alertBlockTemplate)

/-- Function `build_system_prompt` (src/bot/prompts.py lines 18-104).
`LANG_LABELS.get(language, "Espa\u00f1ol")` never uses its default because
`Lang` is closed and `LANG_LABELS` total. -/
def build_system_prompt (language : Lang) (alert_hint : Bool)
    (faq_examples : Option String) : String :=
  let lang_label := LANG_LABELS language
  let base := pyStrip (pydedent (baseTemplate lang_label))
  let base :=
    if pyTruthy faq_examples then
      base ++ "\n\nEjemplos de respuestas apropiadas:\n" ++ pyStrip (faq_examples.getD "")
    else base
  if alert_hint then base ++ alertContextBlock else base

/-- One conversation turn as stored in `context.user_data["history"]`
(src/bot/telegram_bot.py lines 270-274): a dict with keys `role` and
`text`. -/
structure Turn where
  role : String
  text : String
deriving DecidableEq

/-- One iteration of the history-rendering loop in `generate_response`
(src/bot/gemini_client.py lines 103-109): empty texts are skipped, user
turns are labeled `Person`, everything else `Piribot`. -/
def renderTurn (turn : Turn) : Option String :=
  let text := pyStrip turn.text
  if text == "" then none
  else some ((if turn.role == "user" then "Person" else "Piribot") ++ ": " ++ text)

/-- The `history_lines` list of `generate_response`: the last six history
entries rendered as labeled lines. -/
def historyLines (history : List Turn) : List String :=
  (lastN 6 history).filterMap renderTurn

/-- The `contents` value assembled by `generate_response`
(src/bot/gemini_client.py lines 100-135): the system prompt, an optional
short history block, and the current message, glued by the two dedented
f-string templates.  `_FAQ_DATA` is passed in as `faq`. -/
def buildContents (faq : FaqConfig) (user_message : String) (language : Lang)
    (alert_hint : Bool) (history : List Turn) : String :=
  let faq_text := _build_faq_text faq language
  let system_prompt := build_system_prompt language alert_hint faq_text
  let history_block := joinLines (historyLines history)
  if history_block == "" then
    pyStrip (pydedent ("\n            " ++ system_prompt
      ++ "\n\n            Mensaje de la persona embarazada (idioma: " ++ langStr language
      ++ "):\n\n            " ++ user_message ++ "\n            "))
  else
    pyStrip (pydedent ("\n            " ++ system_prompt
      ++ "\n\n            Historial breve de la conversaci\u00f3n:\n            " ++ history_block
      ++ "\n\n            Mensaje actual de la persona embarazada (idioma: " ++ langStr language
      ++ "):\n\n            " ++ user_message ++ "\n            "))

/-- The fixed technical-difficulty preamble of the fallback reply in
`generate_response` (src/bot/gemini_client.py lines 161-164). -/
def fallbackPreamble : String :=
  "En este momento tengo dificultades t\u00e9cnicas para responder con normalidad. Aun as\u00ed, quiero recordarte que tu salud es muy importante.\n\n"

/-- Function `generate_response` (src/bot/gemini_client.py lines 74-165).
`backendText` is the oracle for `response.text` of the single
`generate_content` call; `none` or a whitespace-only value reproduces the
`except` path (exception, empty or missing response text), which returns
the fixed preamble plus the full disclaimer instead of raising. -/
def generate_response (faq : FaqConfig) (user_message : String) (language : Lang)
    (alert_hint : Bool) (history : List Turn) (backendText : Option String) : String :=
  let _contents := buildContents faq user_message language alert_hint history
  let text := pyStrip (backendText.getD "")
  if text == "" then fallbackPreamble ++ get_disclaimer language
  else
    let short_disclaimer := get_short_disclaimer language
    if pyContains text short_disclaimer then text
    else text ++ "\n\n" ++ short_disclaimer

/-- Process-wide configuration and loaded tables seen by
`handle_text_message`: `settings.default_language` (src/config/settings.py),
`_ALERTS_CONFIG` and `_FAQ_DATA`. -/
structure Env where
  default_language : Lang
  alerts : AlertsConfig
  faq : FaqConfig
deriving DecidableEq

/-- The per-user mutable state kept in `context.user_data`:
`user_data["language"]` (absent until set), `user_data["history"]`
(absent or a list; absent is modelled as `[]`, which Python's
`get("history") or []` also yields), and `user_data["alert_shown"]`
(defaulting to `False`). -/
structure SessionState where
  language : Option Lang
  history : List Turn
  alert_shown : Bool
deriving DecidableEq

/-- A fresh `user_data` dict: no language, no history, alert not shown. -/
def initialSession : SessionState :=
  { language := none, history := [], alert_shown := false }

/-- Observable outcome of one `handle_text_message` call: the replies sent
via `reply_text` in order, the updated session state, and the argument
tuple `(user_message, language, alert_hint, history)` of the
`generate_response` call when one was made. -/
structure HandleResult where
  sent : List String
  state : SessionState
  backendCall : Option (String × Lang × Bool × List Turn)
deriving DecidableEq

/-- Function `_get_user_language` (src/bot/telegram_bot.py lines 103-117).
The runtime membership check `lang in ("es", "qu", "shp")` always succeeds
here because the stored value is typed `Lang`. -/
def _get_user_language (env : Env) (st : SessionState) : Lang :=
  match st.language with
  | some lang => lang
  | none => env.default_language

/-- History update of `handle_text_message` (src/bot/telegram_bot.py lines
270-274): append the user turn and the assistant turn, then keep
`history[-10:]`. -/
def updateHistory (history : List Turn) (userTurn botTurn : Turn) : List Turn :=
  lastN 10 (history ++ [userTurn, botTurn])

/-- The generic text substituted for a captionless photo
(src/bot/telegram_bot.py lines 228-231). -/
def photoDefaultText : String :=
  "He enviado una imagen relacionada con un examen o evaluaci\u00f3n m\u00e9dica durante el embarazo. Quisiera una orientaci\u00f3n general, sin diagn\u00f3stico."

/-- Body of `handle_text_message` from the point where the final
`user_text` is fixed (after the stripping and the captionless-photo
substitution). -/
def handle_core (env : Env) (st : SessionState) (user_text : String)
    (backendText : Option String) : HandleResult :=
  if user_text == "" then { sent := [], state := st, backendCall := none }
  else
    match LANG_CODES_BY_LABEL user_text with
    | some lang =>
      { sent := [(MESSAGES lang).language_set]
        state := { st with language := some lang }
        backendCall := none }
    | none =>
      let lang := _get_user_language env st
      let history := st.history
      let alert_message := _detect_alert_message env.alerts user_text lang
      let showAlert := pyTruthy alert_message && !st.alert_shown
      let reply := generate_response env.faq user_text lang showAlert history backendText
      { sent := (if showAlert then [alert_message.getD ""] else []) ++ [reply]
        state := { st with
                   alert_shown := if showAlert then true else st.alert_shown
                   history := updateHistory history ⟨"user", user_text⟩ ⟨"assistant", reply⟩ }
        backendCall := some (user_text, lang, showAlert, history) }

/-- Function `handle_text_message` (src/bot/telegram_bot.py lines 210-280)
from the point where `user_text` has been extracted: `msg_text` is
`update.message.text or update.message.caption or ""` and `has_photo`
tells whether the message carried a photo.  The `except` branch around
`generate_response` is unreachable in this model because
`generate_response` already converts every backend failure into the
fallback reply (its own `except` handler). -/
def handle_text_message (env : Env) (st : SessionState) (msg_text : String)
    (has_photo : Bool) (backendText : Option String) : HandleResult :=
  let user_text := pyStrip msg_text
  handle_core env st (if user_text == "" && has_photo then photoDefaultText else user_text)
    backendText


/-- Newline-freedom of a character list. -/
def noNl : List Char → Bool
  | [] => true
  | c :: t => !(c == '\n') && noNl t

/-- Newline-freedom of a string. -/
def noNlStr (s : String) : Bool :=
  noNl s.data

/-- Normalization pass of `dedent` followed by re-joining, i.e. `dedent`
when the computed margin is empty (proof-side abbreviation). -/
def normJoin (l : List Char) : List Char :=
  joinNl ((splitNl l).map normSeg)

/-- A concrete environment with empty alert and FAQ tables, used by the
concrete instances below. -/
def envEmpty : Env :=
  { default_language := Lang.es, alerts := [], faq := [] }

/-- A concrete environment whose alert table has one Spanish entry, used
by the concrete instances below. -/
def envAlertES : Env :=
  { default_language := Lang.es
    alerts := [(Lang.es, { keywords := ["fiebre", "sangrado"],
                           message := "Puede ser una se\u00f1al de alarma." })]
    faq := [] }

/-- Well-formedness of a FAQ entry: non-empty question and answer after
stripping, exactly the emptiness test of `_build_faq_text`. -/
def faqWellFormed (item : FaqItem) : Bool :=
  !(pyStrip item.question == "") && !(pyStrip item.answer == "")

/-- The example line `_build_faq_text` renders for one FAQ entry. -/
def faqExampleLine (item : FaqItem) : String :=
  "- Pregunta: " ++ pyStrip item.question ++ "\n  Respuesta: " ++ pyStrip item.answer

/-- Stated from the claim wording: "the first three well-formed \u2026 Q/A
pairs of L's FAQ table" \u2014 filter for well-formedness first, then take
three. -/
def claimFaqExamples (items : List FaqItem) : List String :=
  ((items.filter faqWellFormed).take 3).map faqExampleLine

/-- What the code computes: the well-formed pairs among the first three
entries \u2014 take three first, then filter. -/
def wellFormedOfFirstThree (items : List FaqItem) : List String :=
  ((items.take 3).filter faqWellFormed).map faqExampleLine

/-- Stated from the claim wording of the detector: fall back to the
process-wide *default* language's entry when the session language has
none (the code instead hard-codes `"es"`). -/
def claimDetect (cfg : AlertsConfig) (default_language : Lang) (text : String)
    (language : Lang) : Option String :=
  if cfg.isEmpty then none
  else
    match
      (match alertsLookup cfg language with
       | some c => some c
       | none => alertsLookup cfg default_language) with
    | none => none
    | some c =>
      if c.keywords.any (fun kw => pyContains (pyLower text) (pyLower kw)) then some c.message
      else none

/-- The tail of the composed prompt when the history block is present:
the history header, the labeled history lines (oldest first), and the
current message section. -/
def promptHistoryTail (history : List Turn) (language : Lang) (user_message : String) :
    String :=
  "\n\n            Historial breve de la conversaci\u00f3n:\n            "
    ++ joinLines (historyLines history)
    ++ "\n\n            Mensaje actual de la persona embarazada (idioma: " ++ langStr language
    ++ "):\n\n            " ++ user_message

/-- The tail of the composed prompt when the history is empty: no history
block, just the current message section (note the different label). -/
def promptMessageTail (language : Lang) (user_message : String) : String :=
  "\n\n            Mensaje de la persona embarazada (idioma: " ++ langStr language
    ++ "):\n\n            " ++ user_message

end Piribot

namespace Piribot

/-! Generic lemmas about the character-level string primitives. -/

theorem splitNl_ne_nil (l : List Char) : splitNl l ≠ [] := by
  induction l with
  | nil => simp [splitNl]
  | cons c rest ih =>
    rw [splitNl]
    split
    · simp
    · cases h : splitNl rest with
      | nil => simp
      | cons x xs => simp

theorem splitNl_cons_of_ne {c : Char} {l : List Char} {x : List Char} {xs : List (List Char)}
    (hc : c ≠ '\n') (hl : splitNl l = x :: xs) :
    splitNl (c :: l) = (c :: x) :: xs := by
  rw [splitNl, if_neg hc, hl]

theorem splitNl_append_nl (a b : List Char) :
    splitNl (a ++ '\n' :: b) = splitNl a ++ splitNl b := by
  induction a with
  | nil => simp [splitNl]
  | cons c rest ih =>
    by_cases hc : c = '\n'
    · subst hc
      simp [splitNl, ih]
    · obtain ⟨x, xs, hx⟩ : ∃ x xs, splitNl (rest ++ '\n' :: b) = x :: xs := by
        cases h : splitNl (rest ++ '\n' :: b) with
        | nil => exact absurd h (splitNl_ne_nil _)
        | cons x xs => exact ⟨x, xs, rfl⟩
      obtain ⟨y, ys, hy⟩ : ∃ y ys, splitNl rest = y :: ys := by
        cases h : splitNl rest with
        | nil => exact absurd h (splitNl_ne_nil _)
        | cons y ys => exact ⟨y, ys, rfl⟩
      rw [List.cons_append, splitNl_cons_of_ne hc hx, splitNl_cons_of_ne hc hy]
      rw [hx, hy] at ih
      cases ih
      simp

theorem noNl_cons_iff {c : Char} {l : List Char} :
    noNl (c :: l) = true ↔ c ≠ '\n' ∧ noNl l = true := by
  simp [noNl]

theorem splitNl_of_noNl {l : List Char} (h : noNl l = true) : splitNl l = [l] := by
  induction l with
  | nil => rfl
  | cons c rest ih =>
    rw [noNl_cons_iff] at h
    exact splitNl_cons_of_ne h.1 (ih h.2)

theorem joinNl_cons {x : List Char} {ls : List (List Char)} (h : ls ≠ []) :
    joinNl (x :: ls) = x ++ '\n' :: joinNl ls := by
  cases ls with
  | nil => exact absurd rfl h
  | cons y ys => rfl

theorem joinNl_append {u v : List (List Char)} (hu : u ≠ []) (hv : v ≠ []) :
    joinNl (u ++ v) = joinNl u ++ '\n' :: joinNl v := by
  induction u with
  | nil => exact absurd rfl hu
  | cons x xs ih =>
    cases xs with
    | nil =>
      cases v with
      | nil => exact absurd rfl hv
      | cons y ys => simp [joinNl]
    | cons z zs =>
      have h1 : (z :: zs : List (List Char)) ≠ [] := by simp
      have h2 : (z :: zs) ++ v ≠ [] := by simp
      rw [List.cons_append, joinNl_cons h2, joinNl_cons h1, ih h1]
      simp

theorem joinNl_splitNl (l : List Char) : joinNl (splitNl l) = l := by
  induction l with
  | nil => rfl
  | cons c rest ih =>
    rw [splitNl]
    split
    · next hc =>
      subst hc
      rw [joinNl_cons (splitNl_ne_nil _), ih]
      rfl
    · next hc =>
      cases h : splitNl rest with
      | nil => exact absurd h (splitNl_ne_nil _)
      | cons x xs =>
        rw [h] at ih
        cases xs with
        | nil =>
          simp only [joinNl] at ih ⊢
          rw [ih]
        | cons y ys =>
          rw [joinNl_cons (by simp), List.cons_append, ← joinNl_cons (by simp : (y :: ys : List (List Char)) ≠ []), ih]

theorem splitNl_joinNl {L : List (List Char)} (hL : L ≠ [])
    (h : ∀ s ∈ L, noNl s = true) : splitNl (joinNl L) = L := by
  induction L with
  | nil => exact absurd rfl hL
  | cons x xs ih =>
    cases xs with
    | nil => exact splitNl_of_noNl (h x (by simp))
    | cons y ys =>
      rw [joinNl_cons (by simp), splitNl_append_nl, splitNl_of_noNl (h x (by simp)),
        ih (by simp) (fun s hs => h s (List.mem_cons_of_mem _ hs))]
      rfl


theorem noNl_append_iff {a b : List Char} :
    noNl (a ++ b) = true ↔ noNl a = true ∧ noNl b = true := by
  induction a with
  | nil => simp [noNl]
  | cons c t ih =>
    rw [List.cons_append, noNl_cons_iff, noNl_cons_iff, ih]
    tauto

theorem normJoin_append_nl (a b : List Char) :
    normJoin (a ++ '\n' :: b) = normJoin a ++ '\n' :: normJoin b := by
  unfold normJoin
  rw [splitNl_append_nl, List.map_append]
  have ha : (splitNl a).map normSeg ≠ [] := by
    simp [splitNl_ne_nil]
  have hb : (splitNl b).map normSeg ≠ [] := by
    simp [splitNl_ne_nil]
  rw [joinNl_append ha hb]

theorem normSeg_of_mem {l : List Char} {c : Char}
    (hc : c ∈ l) (h : isIndentChar c = false) : normSeg l = l := by
  unfold normSeg
  have : l.all isIndentChar = false := by
    rw [List.all_eq_false]
    exact ⟨c, hc, by simp [h]⟩
  simp [this]

theorem normSeg_nil : normSeg [] = [] := rfl

theorem normJoin_of_noNl {l : List Char} (h : noNl l = true) :
    normJoin l = normSeg l := by
  unfold normJoin
  rw [splitNl_of_noNl h]
  rfl

theorem normJoin_nil : normJoin [] = [] := rfl

theorem commonIndent_nil_left (b : List Char) : commonIndent [] b = [] := by
  cases b <;> rfl

theorem commonIndent_nil_right (a : List Char) : commonIndent a [] = [] := by
  cases a <;> rfl

theorem foldl_commonIndent_nil_acc (L : List (List Char)) :
    L.foldl commonIndent [] = [] := by
  induction L with
  | nil => rfl
  | cons x xs ih => rw [List.foldl_cons, commonIndent_nil_left, ih]

theorem foldl_commonIndent_of_mem_nil {L : List (List Char)} (h : [] ∈ L) :
    ∀ a, L.foldl commonIndent a = [] := by
  induction L with
  | nil => simp at h
  | cons x xs ih =>
    intro a
    rcases List.mem_cons.mp h with hx | hx
    · rw [List.foldl_cons, ← hx, commonIndent_nil_right, foldl_commonIndent_nil_acc]
    · rw [List.foldl_cons]
      exact ih hx _

theorem dedentMargin_of_mem {segs : List (List Char)} {s : List Char}
    (hmem : s ∈ segs) (hne : s ≠ []) (hind : segIndent s = []) :
    dedentMargin segs = [] := by
  unfold dedentMargin
  have h1 : s ∈ segs.filter (fun l => !l.isEmpty) := by
    rw [List.mem_filter]
    exact ⟨hmem, by simp [hne]⟩
  have h2 : ([] : List Char) ∈ (segs.filter (fun l => !l.isEmpty)).map segIndent := by
    rw [List.mem_map]
    exact ⟨s, h1, hind⟩
  cases hM : (segs.filter (fun l => !l.isEmpty)).map segIndent with
  | nil => rfl
  | cons i is =>
    rw [hM] at h2
    rcases List.mem_cons.mp h2 with hx | hx
    · rw [← hx]
      exact foldl_commonIndent_nil_acc is
    · exact foldl_commonIndent_of_mem_nil hx i

theorem dedentChars_of_margin_nil {t : List Char}
    (h : dedentMargin ((splitNl t).map normSeg) = []) :
    dedentChars t = normJoin t := by
  unfold dedentChars normJoin
  simp only [h, List.isEmpty_nil, if_true]

theorem normJoin_eq_self {l : List Char}
    (h : ∀ s ∈ splitNl l, normSeg s = s) : normJoin l = l := by
  unfold normJoin
  rw [List.map_congr_left h]
  simp [joinNl_splitNl]


theorem dropWhile_ws_append {p l : List Char} (h : ∀ c ∈ p, isPySpace c = true) :
    (p ++ l).dropWhile isPySpace = l.dropWhile isPySpace := by
  induction p with
  | nil => rfl
  | cons c t ih =>
    rw [List.cons_append, List.dropWhile_cons, h c (by simp)]
    simp only [if_true]
    exact ih (fun d hd => h d (by simp [hd]))

theorem dropWhile_ws_cons_of_neg {c : Char} {l : List Char} (h : isPySpace c = false) :
    (c :: l).dropWhile isPySpace = c :: l := by
  rw [List.dropWhile_cons, h]
  simp

theorem length_dropWhile_ws_le (l : List Char) :
    (l.dropWhile isPySpace).length ≤ l.length :=
  (List.dropWhile_suffix isPySpace).sublist.length_le

theorem rstripChars_append_ws {l : List Char} {c : Char} (h : isPySpace c = true) :
    rstripChars (l ++ [c]) = rstripChars l := by
  unfold rstripChars
  rw [List.reverse_append]
  simp only [List.reverse_cons, List.reverse_nil, List.nil_append, List.cons_append,
    List.dropWhile_cons, h, if_true]

theorem rstripChars_append_nonws {l : List Char} {c : Char} (h : isPySpace c = false) :
    rstripChars (l ++ [c]) = l ++ [c] := by
  unfold rstripChars
  rw [List.reverse_append]
  simp only [List.reverse_cons, List.reverse_nil, List.nil_append, List.cons_append,
    List.dropWhile_cons, h]
  simp

theorem length_rstripChars_le (l : List Char) : (rstripChars l).length ≤ l.length := by
  unfold rstripChars
  calc (rstripChars l).length = (l.reverse.dropWhile isPySpace).length := by
        simp [rstripChars]
    _ ≤ l.reverse.length := length_dropWhile_ws_le _
    _ = l.length := by simp

theorem stripChars_eq_self_head {c : Char} {t : List Char}
    (h : stripChars (c :: t) = c :: t) : isPySpace c = false := by
  by_contra hc
  rw [Bool.not_eq_false] at hc
  have h1 : stripChars (c :: t) = rstripChars (t.dropWhile isPySpace) := by
    unfold stripChars
    rw [List.dropWhile_cons, hc]
    simp
  have h2 : (stripChars (c :: t)).length ≤ t.length := by
    rw [h1]
    exact le_trans (length_rstripChars_le _) (length_dropWhile_ws_le _)
  rw [h] at h2
  simp at h2

theorem stripChars_eq_self_last {a : List Char} {c : Char}
    (h : stripChars (a ++ [c]) = a ++ [c]) : isPySpace c = false := by
  by_contra hc
  rw [Bool.not_eq_false] at hc
  set l := a ++ [c] with hl
  set D := l.dropWhile isPySpace with hD
  have hDsuf : D <:+ l := List.dropWhile_suffix isPySpace
  have hlen : (stripChars l).length < l.length := by
    rcases List.eq_nil_or_concat' D with hnil | ⟨d, e, hde⟩
    · have : stripChars l = [] := by
        unfold stripChars
        rw [← hD, hnil]
        rfl
      rw [this]
      simp [hl]
    · have he : e = c := by
        obtain ⟨w, hw⟩ := hDsuf
        rw [hde] at hw
        have := congrArg List.reverse hw
        simp only [List.reverse_append, List.reverse_cons, List.reverse_nil, List.nil_append,
          List.cons_append, hl] at this
        exact (List.cons.injEq _ _ _ _ ▸ this).1
      have : stripChars l = rstripChars d := by
        unfold stripChars
        rw [← hD, hde, he, rstripChars_append_ws hc]
      rw [this]
      have hd1 : d.length + 1 = D.length := by
        rw [hde]
        simp
      have hd2 : D.length ≤ l.length := hDsuf.sublist.length_le
      have := length_rstripChars_le d
      omega
  rw [h] at hlen
  omega

theorem stripChars_eq_self_facts {l : List Char} (h : stripChars l = l) (hne : l ≠ []) :
    (∃ c t, l = c :: t ∧ isPySpace c = false) ∧
      (∃ a c, l = a ++ [c] ∧ isPySpace c = false) := by
  constructor
  · cases l with
    | nil => exact absurd rfl hne
    | cons c t => exact ⟨c, t, rfl, stripChars_eq_self_head h⟩
  · rcases List.eq_nil_or_concat' l with hnil | ⟨a, c, hac⟩
    · exact absurd hnil hne
    · subst hac
      exact ⟨a, c, rfl, stripChars_eq_self_last h⟩

theorem listContains_iff {hay needle : List Char} :
    listContains hay needle = true ↔ needle <:+: hay := by
  induction hay with
  | nil =>
    rw [listContains]
    simp
  | cons c t ih =>
    rw [listContains]
    simp only [Bool.or_eq_true, List.isPrefixOf_iff_prefix, ih, List.infix_cons_iff]

theorem listContains_append_left (x needle : List Char) :
    listContains (x ++ needle) needle = true := by
  rw [listContains_iff]
  exact (List.suffix_append x needle).isInfix

theorem lastN_length_le (n : Nat) (l : List α) : (lastN n l).length ≤ n := by
  unfold lastN
  simp only [List.length_drop]
  omega

theorem lastN_ne_nil {n : Nat} (hn : 0 < n) {l : List α} (h : l ≠ []) :
    lastN n l ≠ [] := by
  unfold lastN
  intro hc
  have h1 := congrArg List.length hc
  simp only [List.length_drop, List.length_nil] at h1
  have h2 : l.length ≠ 0 := fun h0 => h (List.length_eq_zero.mp h0)
  omega


/-! Case lemmas for `handle_core` / `handle_text_message`. -/

theorem handle_text_eq (env : Env) (st : SessionState) (m : String) (p : Bool)
    (b : Option String) :
    handle_text_message env st m p b
      = handle_core env st (if pyStrip m == "" && p then photoDefaultText else pyStrip m) b :=
  rfl

theorem handle_core_empty (env : Env) (st : SessionState) (b : Option String) :
    handle_core env st "" b = { sent := [], state := st, backendCall := none } := by
  simp [handle_core]

theorem handle_core_label {u : String} {lang : Lang}
    (env : Env) (st : SessionState) (b : Option String)
    (h : LANG_CODES_BY_LABEL u = some lang) :
    handle_core env st u b =
      { sent := [(MESSAGES lang).language_set]
        state := { st with language := some lang }
        backendCall := none } := by
  have hu : (u == "") = false := by
    rw [beq_eq_false_iff_ne]
    intro he
    rw [he] at h
    simp [LANG_CODES_BY_LABEL] at h
  unfold handle_core
  rw [hu, h]
  rfl

theorem handle_core_chat {u : String}
    (env : Env) (st : SessionState) (b : Option String)
    (h1 : u ≠ "") (h2 : LANG_CODES_BY_LABEL u = none) :
    handle_core env st u b =
      { sent := (if pyTruthy (_detect_alert_message env.alerts u (_get_user_language env st))
                      && !st.alert_shown
                 then [(_detect_alert_message env.alerts u (_get_user_language env st)).getD ""]
                 else [])
          ++ [generate_response env.faq u (_get_user_language env st)
                (pyTruthy (_detect_alert_message env.alerts u (_get_user_language env st))
                  && !st.alert_shown)
                st.history b]
        state := { st with
                   alert_shown :=
                     if pyTruthy (_detect_alert_message env.alerts u (_get_user_language env st))
                          && !st.alert_shown
                     then true else st.alert_shown
                   history := updateHistory st.history ⟨"user", u⟩
                     ⟨"assistant",
                      generate_response env.faq u (_get_user_language env st)
                        (pyTruthy (_detect_alert_message env.alerts u (_get_user_language env st))
                          && !st.alert_shown)
                        st.history b⟩ }
        backendCall := some (u, _get_user_language env st,
          pyTruthy (_detect_alert_message env.alerts u (_get_user_language env st))
            && !st.alert_shown,
          st.history) } := by
  have hu : (u == "") = false := by
    rw [beq_eq_false_iff_ne]
    exact h1
  unfold handle_core
  rw [hu, h2]
  rfl

theorem updateHistory_length_le (h : List Turn) (u a : Turn) :
    (updateHistory h u a).length ≤ 10 :=
  lastN_length_le 10 _

/-- C9: prompt composition is deterministic: it is a pure function of the
FAQ table, the message, the language, the risk flag and the history, so
two invocations with identical arguments produce byte-identical prompt
text. -/
theorem c9_prompt_deterministic (faq faq' : FaqConfig) (m m' : String) (L L' : Lang)
    (r r' : Bool) (h h' : List Turn)
    (hfaq : faq = faq') (hm : m = m') (hL : L = L') (hr : r = r') (hh : h = h') :
    buildContents faq m L r h = buildContents faq' m' L' r' h' := by
  subst hfaq
  subst hm
  subst hL
  subst hr
  subst hh
  rfl

theorem c9_witness :
    buildContents [] "" Lang.es false [] = buildContents [] "" Lang.es false [] :=
  c9_prompt_deterministic [] [] "" "" Lang.es Lang.es false false [] [] rfl rfl rfl rfl rfl

/-- C3 counterexample: a successful backend reply that contains the short
disclaimer followed by further text is returned unchanged, so the final
answer does not end with the short disclaimer — refuting the claim's
"consequently every successful answer ends with the short disclaimer
exactly once". -/
theorem c3_counterexample :
    pyEndsWith
      (generate_response [] "hola" Lang.es false []
        (some (get_short_disclaimer Lang.es ++ "\n\nGracias por escribirme.")))
      (get_short_disclaimer Lang.es) = false := by
  decide

/-- C3 (amended): for a successful backend reply `raw` with stripped text
`t ≠ ""`: if `t` does not contain the short disclaimer the reply is
`t ++ blank line ++ short disclaimer`; if it does contain it, `t` is
returned unchanged; consequently every successful answer *contains* the
short disclaimer at least once (it need not end with it when the
disclaimer occurred mid-text). -/
theorem c3_disclaimer_postprocess (faq : FaqConfig) (m : String) (L : Lang) (hint : Bool)
    (hist : List Turn) (raw : String) (h : pyStrip raw ≠ "") :
    (pyContains (pyStrip raw) (get_short_disclaimer L) = false →
        generate_response faq m L hint hist (some raw)
          = pyStrip raw ++ "\n\n" ++ get_short_disclaimer L)
    ∧ (pyContains (pyStrip raw) (get_short_disclaimer L) = true →
        generate_response faq m L hint hist (some raw) = pyStrip raw)
    ∧ pyContains (generate_response faq m L hint hist (some raw))
        (get_short_disclaimer L) = true := by
  have he : (pyStrip raw == "") = false := by
    rw [beq_eq_false_iff_ne]
    exact h
  by_cases hc : pyContains (pyStrip raw) (get_short_disclaimer L) = true
  · refine ⟨fun hf => absurd hc (by simp [hf]), fun _ => ?_, ?_⟩
    · unfold generate_response
      simp only [Option.getD_some, he, Bool.false_eq_true, if_false, hc, if_true]
    · unfold generate_response
      simp only [Option.getD_some, he, Bool.false_eq_true, if_false, hc, if_true]
  · have hc' : pyContains (pyStrip raw) (get_short_disclaimer L) = false := by
      simpa using hc
    have hr : generate_response faq m L hint hist (some raw)
        = pyStrip raw ++ "\n\n" ++ get_short_disclaimer L := by
      unfold generate_response
      simp only [Option.getD_some, he, Bool.false_eq_true, if_false, hc', if_true]
    refine ⟨fun _ => hr, fun ht => absurd ht (by simp [hc']), ?_⟩
    rw [hr]
    unfold pyContains
    have hd : (pyStrip raw ++ "\n\n" ++ get_short_disclaimer L).data
        = (pyStrip raw ++ "\n\n").data ++ (get_short_disclaimer L).data := by
      rw [String.data_append]
    rw [hd]
    exact listContains_append_left _ _

theorem c3_witness :
    pyContains (generate_response [] "hola" Lang.es false [] (some "Hola."))
      (get_short_disclaimer Lang.es) = true :=
  (c3_disclaimer_postprocess [] "hola" Lang.es false [] "Hola." (by decide)).2.2

/-- C4: the stored history is the capped `history[-10:]` of the previous
history plus the new user/assistant pair (insertion order kept, oldest
entries dropped from the front), its length never exceeds 10, and
appending 6 user+assistant pairs (12 entries) to a fresh session leaves
exactly the most recent 10 entries in oldest-first order. -/
theorem c4_history_cap :
    (∀ env st m p b, st.history.length ≤ 10 →
      (handle_text_message env st m p b).state.history.length ≤ 10)
    ∧ (∀ env st m p b, pyStrip m ≠ "" → LANG_CODES_BY_LABEL (pyStrip m) = none →
      ∃ r, (handle_text_message env st m p b).state.history
        = lastN 10 (st.history ++ [⟨"user", pyStrip m⟩, ⟨"assistant", r⟩]))
    ∧ (∀ t1 t2 t3 t4 t5 t6 t7 t8 t9 t10 t11 t12 : Turn,
      updateHistory (updateHistory (updateHistory (updateHistory (updateHistory
        (updateHistory [] t1 t2) t3 t4) t5 t6) t7 t8) t9 t10) t11 t12
        = [t3, t4, t5, t6, t7, t8, t9, t10, t11, t12]) := by
  refine ⟨?_, ?_, ?_⟩
  · intro env st m p b h
    rw [handle_text_eq]
    generalize (if pyStrip m == "" && p then photoDefaultText else pyStrip m) = u
    by_cases hu : u = ""
    · rw [hu, handle_core_empty]
      exact h
    · cases hl : LANG_CODES_BY_LABEL u with
      | some lang =>
        rw [handle_core_label env st b hl]
        exact h
      | none =>
        rw [handle_core_chat env st b hu hl]
        exact updateHistory_length_le _ _ _
  · intro env st m p b h1 h2
    rw [handle_text_eq]
    have hcond : (pyStrip m == "" && p) = false := by
      have : (pyStrip m == "") = false := by
        rw [beq_eq_false_iff_ne]
        exact h1
      simp [this]
    rw [hcond]
    simp only [Bool.false_eq_true, if_false]
    rw [handle_core_chat env st b h1 h2]
    exact ⟨_, rfl⟩
  · intro t1 t2 t3 t4 t5 t6 t7 t8 t9 t10 t11 t12
    simp [updateHistory, lastN]

theorem c4_witness :
    ((handle_text_message envEmpty initialSession "Hola" false none).state.history.length ≤ 10)
    ∧ (∃ r, (handle_text_message envEmpty initialSession "Hola" false none).state.history
        = lastN 10 (initialSession.history ++ [⟨"user", pyStrip "Hola"⟩, ⟨"assistant", r⟩]))
    ∧ (updateHistory (updateHistory (updateHistory (updateHistory (updateHistory
        (updateHistory [] ⟨"user", "u1"⟩ ⟨"assistant", "a1"⟩)
          ⟨"user", "u2"⟩ ⟨"assistant", "a2"⟩) ⟨"user", "u3"⟩ ⟨"assistant", "a3"⟩)
          ⟨"user", "u4"⟩ ⟨"assistant", "a4"⟩) ⟨"user", "u5"⟩ ⟨"assistant", "a5"⟩)
          ⟨"user", "u6"⟩ ⟨"assistant", "a6"⟩
        = [⟨"user", "u2"⟩, ⟨"assistant", "a2"⟩, ⟨"user", "u3"⟩, ⟨"assistant", "a3"⟩,
           ⟨"user", "u4"⟩, ⟨"assistant", "a4"⟩, ⟨"user", "u5"⟩, ⟨"assistant", "a5"⟩,
           ⟨"user", "u6"⟩, ⟨"assistant", "a6"⟩]) :=
  ⟨c4_history_cap.1 envEmpty initialSession "Hola" false none (by decide),
   c4_history_cap.2.1 envEmpty initialSession "Hola" false none (by decide) (by decide),
   c4_history_cap.2.2 ⟨"user", "u1"⟩ ⟨"assistant", "a1"⟩ ⟨"user", "u2"⟩ ⟨"assistant", "a2"⟩
     ⟨"user", "u3"⟩ ⟨"assistant", "a3"⟩ ⟨"user", "u4"⟩ ⟨"assistant", "a4"⟩
     ⟨"user", "u5"⟩ ⟨"assistant", "a5"⟩ ⟨"user", "u6"⟩ ⟨"assistant", "a6"⟩⟩

/-- C8: the alert flag of a fresh session is false, and the
message-handling step never resets it: whenever it is true before a step
it is still true after it (in particular setting it again is idempotent —
the step writes `true` over `true`). -/
theorem c8_alert_flag_monotone :
    initialSession.alert_shown = false
    ∧ (∀ env st m p b, st.alert_shown = true →
      (handle_text_message env st m p b).state.alert_shown = true) := by
  refine ⟨rfl, ?_⟩
  intro env st m p b h
  rw [handle_text_eq]
  generalize (if pyStrip m == "" && p then photoDefaultText else pyStrip m) = u
  by_cases hu : u = ""
  · rw [hu, handle_core_empty]
    exact h
  · cases hl : LANG_CODES_BY_LABEL u with
    | some lang =>
      rw [handle_core_label env st b hl]
      exact h
    | none =>
      rw [handle_core_chat env st b hu hl]
      simp [h]

theorem c8_witness :
    (handle_text_message envEmpty
      { language := none, history := [], alert_shown := true } "Hola" false none).state.alert_shown
      = true :=
  c8_alert_flag_monotone.2 envEmpty
    { language := none, history := [], alert_shown := true } "Hola" false none rfl

/-- C10: an inbound message whose text exactly equals a language-selector
label sets the session language to the matching code, sends only that
language's confirmation message, makes no backend call, and leaves the
history and the alert flag unchanged. -/
theorem c10_language_selection (env : Env) (st : SessionState) (m : String) (p : Bool)
    (b : Option String) (lang : Lang) (h : LANG_CODES_BY_LABEL m = some lang) :
    handle_text_message env st m p b =
      { sent := [(MESSAGES lang).language_set]
        state := { st with language := some lang }
        backendCall := none } := by
  have hm : pyStrip m = m ∧ m ≠ "" := by
    unfold LANG_CODES_BY_LABEL at h
    split_ifs at h with h1 h2 h3
    · subst h1
      exact ⟨by decide, by decide⟩
    · subst h2
      exact ⟨by decide, by decide⟩
    · subst h3
      exact ⟨by decide, by decide⟩
  rw [handle_text_eq]
  have hcond : (pyStrip m == "" && p) = false := by
    have h0 : (pyStrip m == "") = false := by
      rw [beq_eq_false_iff_ne, hm.1]
      exact hm.2
    simp [h0]
  rw [hcond]
  simp only [Bool.false_eq_true, if_false]
  rw [hm.1]
  exact handle_core_label env st b h

theorem c10_witness :
    handle_text_message envEmpty initialSession "Quechua" false none =
      { sent := [(MESSAGES Lang.qu).language_set]
        state := { initialSession with language := some Lang.qu }
        backendCall := none } :=
  c10_language_selection envEmpty initialSession "Quechua" false none Lang.qu (by decide)


/-- C2: first risky message with the flag down emits the configured
warning as a standalone reply before the generated answer, sets the flag,
and passes `riskFlag = true` into prompt composition; any risky message
arriving while the flag is already up emits no standalone warning and
passes `riskFlag = false`. -/
theorem c2_alert_gating :
    (∀ env st m p b w, st.alert_shown = false →
      pyStrip m ≠ "" → LANG_CODES_BY_LABEL (pyStrip m) = none →
      _detect_alert_message env.alerts (pyStrip m) (_get_user_language env st) = some w →
      w ≠ "" →
      (handle_text_message env st m p b).sent
          = [w, generate_response env.faq (pyStrip m) (_get_user_language env st) true
              st.history b]
        ∧ (handle_text_message env st m p b).state.alert_shown = true
        ∧ (handle_text_message env st m p b).backendCall
            = some (pyStrip m, _get_user_language env st, true, st.history))
    ∧ (∀ env st m p b w, st.alert_shown = true →
      pyStrip m ≠ "" → LANG_CODES_BY_LABEL (pyStrip m) = none →
      _detect_alert_message env.alerts (pyStrip m) (_get_user_language env st) = some w →
      (handle_text_message env st m p b).sent
          = [generate_response env.faq (pyStrip m) (_get_user_language env st) false
              st.history b]
        ∧ (handle_text_message env st m p b).backendCall
            = some (pyStrip m, _get_user_language env st, false, st.history)) := by
  constructor
  · intro env st m p b w hflag h1 h2 hdet hw
    have hcond : (pyStrip m == "" && p) = false := by
      have h0 : (pyStrip m == "") = false := by
        rw [beq_eq_false_iff_ne]
        exact h1
      simp [h0]
    rw [handle_text_eq, hcond]
    simp only [Bool.false_eq_true, if_false]
    rw [handle_core_chat env st b h1 h2]
    have hshow : (pyTruthy (_detect_alert_message env.alerts (pyStrip m)
        (_get_user_language env st)) && !st.alert_shown) = true := by
      rw [hdet, hflag]
      simp [pyTruthy, hw]
    rw [hshow]
    simp [hdet]
  · intro env st m p b w hflag h1 h2 hdet
    have hcond : (pyStrip m == "" && p) = false := by
      have h0 : (pyStrip m == "") = false := by
        rw [beq_eq_false_iff_ne]
        exact h1
      simp [h0]
    rw [handle_text_eq, hcond]
    simp only [Bool.false_eq_true, if_false]
    rw [handle_core_chat env st b h1 h2]
    have hshow : (pyTruthy (_detect_alert_message env.alerts (pyStrip m)
        (_get_user_language env st)) && !st.alert_shown) = false := by
      rw [hflag]
      simp
    rw [hshow]
    simp

theorem c2_witness :
    ((handle_text_message envAlertES initialSession "Tengo fiebre" false none).sent
        = ["Puede ser una se\u00f1al de alarma.",
           generate_response envAlertES.faq (pyStrip "Tengo fiebre")
             (_get_user_language envAlertES initialSession) true initialSession.history none]
      ∧ (handle_text_message envAlertES initialSession "Tengo fiebre" false none).state.alert_shown
          = true
      ∧ (handle_text_message envAlertES initialSession "Tengo fiebre" false none).backendCall
          = some (pyStrip "Tengo fiebre", _get_user_language envAlertES initialSession, true,
              initialSession.history))
    ∧ ((handle_text_message envAlertES
          { language := none, history := [], alert_shown := true } "Tengo fiebre" false none).sent
        = [generate_response envAlertES.faq (pyStrip "Tengo fiebre")
            (_get_user_language envAlertES
              { language := none, history := [], alert_shown := true }) false [] none]
      ∧ (handle_text_message envAlertES
          { language := none, history := [], alert_shown := true } "Tengo fiebre" false none).backendCall
          = some (pyStrip "Tengo fiebre",
              _get_user_language envAlertES
                { language := none, history := [], alert_shown := true }, false, [])) :=
  ⟨c2_alert_gating.1 envAlertES initialSession "Tengo fiebre" false none
      "Puede ser una se\u00f1al de alarma." rfl (by decide) (by decide) (by decide) (by decide),
   c2_alert_gating.2 envAlertES { language := none, history := [], alert_shown := true }
      "Tengo fiebre" false none "Puede ser una se\u00f1al de alarma." rfl (by decide) (by decide)
      (by decide)⟩

/-- C1 counterexample: when the backend fails, `generate_response` returns
the fallback reply normally, so `handle_text_message` appends it to the
session history — refuting the claim's "the session's history is not
updated by that message". -/
theorem c1_counterexample :
    (handle_text_message envEmpty initialSession "Hola" false none).state.history
      ≠ initialSession.history := by
  decide

/-- C1 (amended): on any backend failure (exception, missing or
whitespace-only response text) the reply delivered to the user is the
fixed technical-difficulty preamble concatenated with the full disclaimer
for the session language, produced by the single backend call (no retry);
the session history *is* updated with the user message and that fallback
reply. -/
theorem c1_fallback (env : Env) (st : SessionState) (m : String) (p : Bool)
    (b : Option String)
    (h1 : pyStrip m ≠ "") (h2 : LANG_CODES_BY_LABEL (pyStrip m) = none)
    (hb : pyStrip (b.getD "") = "") :
    (handle_text_message env st m p b).sent.getLast?
        = some (fallbackPreamble ++ get_disclaimer (_get_user_language env st))
    ∧ (handle_text_message env st m p b).state.history
        = lastN 10 (st.history ++ [⟨"user", pyStrip m⟩,
            ⟨"assistant", fallbackPreamble ++ get_disclaimer (_get_user_language env st)⟩]) := by
  have hcond : (pyStrip m == "" && p) = false := by
    have h0 : (pyStrip m == "") = false := by
      rw [beq_eq_false_iff_ne]
      exact h1
    simp [h0]
  rw [handle_text_eq, hcond]
  simp only [Bool.false_eq_true, if_false]
  rw [handle_core_chat env st b h1 h2]
  have hrep : generate_response env.faq (pyStrip m) (_get_user_language env st)
      (pyTruthy (_detect_alert_message env.alerts (pyStrip m) (_get_user_language env st))
        && !st.alert_shown) st.history b
      = fallbackPreamble ++ get_disclaimer (_get_user_language env st) := by
    unfold generate_response
    rw [hb]
    simp
  constructor
  · rw [hrep]
    cases hA : (pyTruthy (_detect_alert_message env.alerts (pyStrip m)
        (_get_user_language env st)) && !st.alert_shown) <;> simp
  · rw [hrep]
    rfl

theorem c1_witness :
    (handle_text_message envEmpty initialSession "Hola" false none).sent.getLast?
        = some (fallbackPreamble ++ get_disclaimer Lang.es)
    ∧ (handle_text_message envEmpty initialSession "Hola" false none).state.history
        = lastN 10 (([] : List Turn) ++ [⟨"user", pyStrip "Hola"⟩,
            ⟨"assistant", fallbackPreamble ++ get_disclaimer Lang.es⟩]) :=
  c1_fallback envEmpty initialSession "Hola" false none (by decide) (by decide) (by decide)


/-- The keyword loop returns the configured message exactly when some
keyword's lowercase form occurs in the lowered text. -/
theorem detectLoop_eq_some {msg tl : String} {kws : List String} {w : String} :
    detectLoop msg tl kws = some w ↔
      w = msg ∧ ∃ kw ∈ kws, pyContains tl (pyLower kw) = true := by
  induction kws with
  | nil => simp [detectLoop]
  | cons k rest ih =>
    rw [detectLoop]
    split
    · next hk =>
      simp only [Option.some.injEq]
      constructor
      · intro h
        exact ⟨h.symm, k, by simp, hk⟩
      · intro h
        exact h.1.symm
    · next hk =>
      rw [ih]
      constructor
      · rintro ⟨hw, kw, hmem, hcont⟩
        exact ⟨hw, kw, by simp [hmem], hcont⟩
      · rintro ⟨hw, kw, hmem, hcont⟩
        rcases List.mem_cons.mp hmem with h | h
        · subst h
          exact absurd hcont hk
        · exact ⟨hw, kw, h, hcont⟩

/-- C7 counterexample: the detector's fallback entry is the hard-coded
`"es"` one, not the configured default language's.  With default language
`qu`, a `qu`-only alert table and session language `shp`, the claim
predicts the `qu` warning while the code detects nothing. -/
theorem c7_counterexample :
    ¬ (_detect_alert_message [(Lang.qu, { keywords := ["x"], message := "wq" })] "x" Lang.shp
        = claimDetect [(Lang.qu, { keywords := ["x"], message := "wq" })] Lang.qu "x" Lang.shp) := by
  decide

/-- C7 (amended): `_detect_alert_message cfg t L = some w` exactly when
the table is non-empty, the effective entry (the one for `L`, else the
hard-coded `"es"` one — not the configured default language's) exists,
`w` is that entry's configured message, and some of its keywords is a
case-insensitive substring of `t`; and with no table loaded the detector
returns none on every input. -/
theorem c7_detect_characterization (cfg : AlertsConfig) (t : String) (L : Lang) :
    (∀ w, _detect_alert_message cfg t L = some w ↔
      cfg ≠ [] ∧ ∃ lc, effAlertEntry cfg L = some lc ∧ w = lc.message ∧
        ∃ kw ∈ lc.keywords, pyContains (pyLower t) (pyLower kw) = true)
    ∧ (cfg = [] → _detect_alert_message cfg t L = none) := by
  constructor
  · intro w
    unfold _detect_alert_message
    by_cases hc : cfg.isEmpty
    · have hcfg : cfg = [] := by simpa [List.isEmpty_iff] using hc
      rw [if_pos hc]
      simp [hcfg]
    · have hcfg : cfg ≠ [] := by simpa [List.isEmpty_iff] using hc
      rw [if_neg hc]
      cases he : effAlertEntry cfg L with
      | none => simp [hcfg]
      | some lc =>
        constructor
        · intro h
          obtain ⟨hw, kw, hmem, hcont⟩ := detectLoop_eq_some.mp h
          exact ⟨hcfg, lc, rfl, hw, kw, hmem, hcont⟩
        · rintro ⟨-, lc', hlc, hw, kw, hmem, hcont⟩
          cases hlc
          exact detectLoop_eq_some.mpr ⟨hw, kw, hmem, hcont⟩
  · intro hcfg
    subst hcfg
    rfl

/-- C5 counterexample: `_build_faq_text` takes the first three entries and
then keeps the well-formed ones, so with a malformed first entry it
renders only two examples — not "the first three well-formed pairs" the
claim asks for. -/
theorem c5_counterexample :
    ¬ (_build_faq_text
        [(Lang.es, [{ question := "", answer := "x" }, { question := "q1", answer := "a1" },
                    { question := "q2", answer := "a2" }, { question := "q3", answer := "a3" }])]
        Lang.es
      = some (joinLines (claimFaqExamples
          [{ question := "", answer := "x" }, { question := "q1", answer := "a1" },
           { question := "q2", answer := "a2" }, { question := "q3", answer := "a3" }]))) := by
  decide

theorem faqRender_eq (x : FaqItem) :
    faqRender x = if faqWellFormed x then some (faqExampleLine x) else none := by
  cases h1 : pyStrip x.question == "" <;> cases h2 : pyStrip x.answer == "" <;>
    simp [faqRender, faqWellFormed, faqExampleLine, h1, h2]

theorem faq_examples_filterMap_eq (l : List FaqItem) :
    l.filterMap faqRender = (l.filter faqWellFormed).map faqExampleLine := by
  induction l with
  | nil => rfl
  | cons x xs ih =>
    rw [List.filterMap_cons, List.filter_cons, faqRender_eq]
    cases hw : faqWellFormed x
    · simp only [Bool.false_eq_true, if_false]
      exact ih
    · simp only [if_true, List.map_cons]
      rw [ih]

/-- C5 (amended): the FAQ example block consists of exactly the
well-formed pairs *among the first three entries* of the effective table
(the language's, falling back to the hard-coded `"es"` table when the
language's is missing or empty), rendered in order; entries beyond the
first three are never used, and the block is omitted when no well-formed
pair remains. -/
theorem c5_faq_first_three (faq : FaqConfig) (L : Lang) :
    _build_faq_text faq L =
      match (if ((faqLookup faq L).getD []).isEmpty then faqLookup faq Lang.es
             else faqLookup faq L) with
      | none => none
      | some items =>
        if wellFormedOfFirstThree items = [] then none
        else some (joinLines (wellFormedOfFirstThree items)) := by
  unfold _build_faq_text wellFormedOfFirstThree
  cases hd : (if ((faqLookup faq L).getD []).isEmpty then faqLookup faq Lang.es
              else faqLookup faq L) with
  | none => rfl
  | some items =>
    simp only []
    rw [faq_examples_filterMap_eq]
    by_cases hi : items.isEmpty
    · have hnil : items = [] := by simpa [List.isEmpty_iff] using hi
      subst hnil
      simp
    · rw [if_neg hi]
      by_cases hex : (items.take 3).filter faqWellFormed = []
      · simp [hex]
      · have : (((items.take 3).filter faqWellFormed).map faqExampleLine).isEmpty = false := by
          simp [List.isEmpty_iff, hex]
        rw [this]
        have hne : ((items.take 3).filter faqWellFormed).map faqExampleLine ≠ [] := by
          simp [hex]
        obtain ⟨y, hy⟩ := List.exists_mem_of_ne_nil _ hex
        have hym := List.mem_filter.mp hy
        simp [if_neg hne, hym.1, hym.2]
        exact ⟨y, hym.1, hym.2⟩


/-! Infrastructure for the prompt-tail theorem. -/

theorem joinLines_data (ls : List String) :
    (joinLines ls).data = joinNl (ls.map String.data) := by
  induction ls with
  | nil => rfl
  | cons s ss ih =>
    cases ss with
    | nil => rfl
    | cons t ts =>
      show (s ++ "\n" ++ joinLines (t :: ts)).data = _
      rw [String.data_append, String.data_append, ih]
      simp only [List.map_cons]
      rw [joinNl_cons (by simp : (t.data :: List.map String.data ts) ≠ [])]
      simp

theorem noNl_append {a b : List Char} (ha : noNl a = true) (hb : noNl b = true) :
    noNl (a ++ b) = true :=
  noNl_append_iff.mpr ⟨ha, hb⟩

theorem splitNl_prepend {p l x : List Char} {xs : List (List Char)}
    (hp : noNl p = true) (hl : splitNl l = x :: xs) :
    splitNl (p ++ l) = (p ++ x) :: xs := by
  induction p with
  | nil => simpa using hl
  | cons c t ih =>
    rw [noNl_cons_iff] at hp
    rw [List.cons_append, splitNl_cons_of_ne hp.1 (ih hp.2), List.cons_append]

theorem splitNl_prepend_join {p x : List Char} {xs : List (List Char)}
    (hp : noNl p = true) (hx : noNl x = true) (hxs : ∀ l ∈ xs, noNl l = true) :
    splitNl (p ++ joinNl (x :: xs)) = (p ++ x) :: xs := by
  cases xs with
  | nil => exact splitNl_prepend hp (splitNl_of_noNl hx)
  | cons y ys =>
    have hj : splitNl (joinNl (x :: y :: ys)) = x :: y :: ys :=
      splitNl_joinNl (by simp)
        (by
          intro s hs
          rcases List.mem_cons.mp hs with h | h
          · exact h ▸ hx
          · exact hxs s h)
    exact splitNl_prepend hp hj

theorem normJoin_single_kept {l : List Char} (hn : noNl l = true) (hk : normSeg l = l) :
    normJoin l = l := by
  rw [normJoin_of_noNl hn, hk]

theorem normJoin_prepend_join {p x : List Char} {xs : List (List Char)}
    (hp : noNl p = true) (hx : noNl x = true) (hxs : ∀ l ∈ xs, noNl l = true)
    (hk0 : normSeg (p ++ x) = p ++ x) (hks : ∀ l ∈ xs, normSeg l = l) :
    normJoin (p ++ joinNl (x :: xs)) = p ++ joinNl (x :: xs) := by
  apply normJoin_eq_self
  rw [splitNl_prepend_join hp hx hxs]
  intro s hs
  rcases List.mem_cons.mp hs with h | h
  · exact h ▸ hk0
  · exact hks s h

theorem isIndentChar_isPySpace {c : Char} (h : isIndentChar c = true) :
    isPySpace c = true := by
  unfold isIndentChar at h
  simp at h
  rcases h with hc | hc <;> subst hc <;> rfl

theorem isIndentChar_false_of_nonws {c : Char} (h : isPySpace c = false) :
    isIndentChar c = false := by
  cases hi : isIndentChar c
  · rfl
  · rw [isIndentChar_isPySpace hi] at h
    cases h

theorem normSeg_of_head_nonws {c : Char} {t p : List Char} (h : isPySpace c = false) :
    normSeg (p ++ c :: t) = p ++ c :: t :=
  normSeg_of_mem (by simp) (isIndentChar_false_of_nonws h)

theorem pyStrip_facts {s : String} (h : pyStrip s = s) (hne : s ≠ "") :
    (∃ c t, s.data = c :: t ∧ isPySpace c = false) ∧
      (∃ a c, s.data = a ++ [c] ∧ isPySpace c = false) := by
  have hdata : stripChars s.data = s.data := congrArg String.data h
  have hd : s.data ≠ [] := fun h0 => hne (String.ext h0)
  exact stripChars_eq_self_facts hdata hd


theorem noNl_iff_forall {l : List Char} : noNl l = true ↔ ∀ c ∈ l, c ≠ '\n' := by
  induction l with
  | nil => simp [noNl]
  | cons c t ih =>
    rw [noNl_cons_iff, ih]
    simp

theorem mem_stripChars_subset {c : Char} {l : List Char} (h : c ∈ stripChars l) :
    c ∈ l := by
  unfold stripChars rstripChars at h
  have h1 := (List.dropWhile_suffix isPySpace).sublist.subset (List.mem_reverse.mp h)
  have h2 := List.mem_reverse.mp h1
  exact (List.dropWhile_suffix isPySpace).sublist.subset h2

theorem noNl_stripChars {l : List Char} (h : noNl l = true) :
    noNl (stripChars l) = true := by
  rw [noNl_iff_forall] at h ⊢
  exact fun c hc => h c (mem_stripChars_subset hc)

theorem btLines_noNl (lang : Lang) :
    ∀ s ∈ btLines (LANG_LABELS lang), noNlStr s = true := by
  cases lang <;> decide

theorem btLines_margin (lang : Lang) :
    dedentMargin (((btLines (LANG_LABELS lang)).map String.data).map normSeg)
      = ("        " : String).data := by
  cases lang <;> decide

theorem btLines_dedented (lang : Lang) :
    (((btLines (LANG_LABELS lang)).map String.data).map normSeg).map
        (fun l => if (("        " : String).data).isPrefixOf l
                  then l.drop (("        " : String).data).length else l)
      = (btDedented (LANG_LABELS lang)).map String.data := by
  cases lang <;> decide

theorem basePrompt_dedent (lang : Lang) :
    dedentChars (baseTemplate (LANG_LABELS lang)).data
      = joinNl ((btDedented (LANG_LABELS lang)).map String.data) := by
  have hsplit : splitNl (baseTemplate (LANG_LABELS lang)).data
      = (btLines (LANG_LABELS lang)).map String.data := by
    unfold baseTemplate
    rw [joinLines_data]
    apply splitNl_joinNl
    · cases lang <;> simp [btLines]
    · intro s hs
      obtain ⟨t, ht, rfl⟩ := List.mem_map.mp hs
      exact btLines_noNl lang t ht
  simp only [dedentChars]
  rw [hsplit, btLines_margin lang]
  rw [show (("        " : String).data).isEmpty = false from by decide]
  simp only [Bool.false_eq_true, if_false]
  rw [btLines_dedented lang]

theorem stripChars_joinNl_shape {e e' X : List Char} {c : Char}
    {M : List (List Char)} {A : List Char} {d : Char}
    (hc : isPySpace c = false) (he : e = c :: e') (hd : isPySpace d = false)
    (hX : X = A ++ [d]) :
    stripChars (joinNl ([] :: e :: (M ++ [X, []]))) = joinNl (e :: (M ++ [X])) := by
  subst hX
  have h1 : M ++ [A ++ [d], []] = (M ++ [A ++ [d]]) ++ [[]] := by simp
  obtain ⟨B, hB⟩ : ∃ B, joinNl (M ++ [A ++ [d]]) = B ++ [d] := by
    cases M with
    | nil => exact ⟨A, rfl⟩
    | cons x xs =>
      refine ⟨joinNl (x :: xs) ++ '\n' :: A, ?_⟩
      rw [joinNl_append (by simp) (by simp),
        show joinNl [A ++ [d]] = A ++ [d] from rfl]
      simp
  have h2 : joinNl ([] :: e :: (M ++ [A ++ [d], []]))
      = '\n' :: (e ++ '\n' :: (joinNl (M ++ [A ++ [d]]) ++ ['\n'])) := by
    rw [joinNl_cons (by simp), joinNl_cons (by simp), h1,
      joinNl_append (by simp) (by simp : ([[]] : List (List Char)) ≠ [])]
    simp [joinNl]
  rw [h2]
  unfold stripChars
  have h3 : List.dropWhile isPySpace
      ('\n' :: (e ++ '\n' :: (joinNl (M ++ [A ++ [d]]) ++ ['\n'])))
      = e ++ '\n' :: (joinNl (M ++ [A ++ [d]]) ++ ['\n']) := by
    rw [List.dropWhile_cons, show isPySpace '\n' = true from rfl]
    simp only [if_true]
    rw [he, List.cons_append]
    exact dropWhile_ws_cons_of_neg hc
  rw [h3]
  have h4 : e ++ '\n' :: (joinNl (M ++ [A ++ [d]]) ++ ['\n'])
      = (e ++ '\n' :: joinNl (M ++ [A ++ [d]])) ++ ['\n'] := by simp
  rw [h4, rstripChars_append_ws (by rfl)]
  rw [joinNl_cons (by simp : (M ++ [A ++ [d]]) ≠ []), hB]
  have h5 : e ++ '\n' :: (B ++ [d]) = (e ++ '\n' :: B) ++ [d] := by simp
  rw [h5]
  exact rstripChars_append_nonws hd

theorem basePrompt_decomp (lang : Lang) :
    ∃ v : List Char,
      (pyStrip (pydedent (baseTemplate (LANG_LABELS lang)))).data
        = eresLine.data ++ '\n' :: (tuLine.data ++ '\n' :: v) := by
  have hstr : ∀ s : String, (pyStrip s).data = stripChars s.data := fun _ => rfl
  have hded : ∀ s : String, (pydedent s).data = dedentChars s.data := fun _ => rfl
  rw [hstr, hded, basePrompt_dedent lang]
  have hmap : (btDedented (LANG_LABELS lang)).map String.data
      = [] :: eresLine.data
          :: ((tuLine.data :: (btDedMid (LANG_LABELS lang)).map String.data)
              ++ [finalContentLine.data, []]) := by
    unfold btDedented
    simp [List.map_append]
  rw [hmap]
  rw [@stripChars_joinNl_shape eresLine.data eresLine.data.tail finalContentLine.data 'E'
      (tuLine.data :: (btDedMid (LANG_LABELS lang)).map String.data)
      finalContentLine.data.dropLast '.'
      (by decide) (by decide) (by decide) (by decide)]
  refine ⟨joinNl ((btDedMid (LANG_LABELS lang)).map String.data ++ [finalContentLine.data]), ?_⟩
  rw [joinNl_cons (by simp), List.cons_append,
    joinNl_cons (by simp : ((btDedMid (LANG_LABELS lang)).map String.data
      ++ [finalContentLine.data]) ≠ [])]

theorem decomp_append {s : String} {v0 : List Char}
    (h : s.data = eresLine.data ++ '\n' :: (tuLine.data ++ '\n' :: v0)) (t : String) :
    (s ++ t).data = eresLine.data ++ '\n' :: (tuLine.data ++ '\n' :: (v0 ++ t.data)) := by
  rw [String.data_append, h]
  simp

theorem system_prompt_decomp (lang : Lang) (hint : Bool) (fq : Option String) :
    ∃ v : List Char,
      (build_system_prompt lang hint fq).data
        = eresLine.data ++ '\n' :: (tuLine.data ++ '\n' :: v) := by
  obtain ⟨v0, hv⟩ := basePrompt_decomp lang
  unfold build_system_prompt
  cases hfq : pyTruthy fq with
  | false =>
    cases hint with
    | false =>
      refine ⟨v0, ?_⟩
      simp only [hfq, Bool.false_eq_true, if_false]
      exact hv
    | true =>
      refine ⟨v0 ++ alertContextBlock.data, ?_⟩
      simp only [hfq, Bool.false_eq_true, if_false, if_true]
      exact decomp_append hv alertContextBlock
  | true =>
    cases hint with
    | false =>
      refine ⟨(v0 ++ ("\n\nEjemplos de respuestas apropiadas:\n" : String).data)
        ++ (pyStrip (fq.getD "")).data, ?_⟩
      simp only [hfq, if_true, Bool.false_eq_true, if_false]
      exact decomp_append (decomp_append hv _) _
    | true =>
      refine ⟨((v0 ++ ("\n\nEjemplos de respuestas apropiadas:\n" : String).data)
        ++ (pyStrip (fq.getD "")).data) ++ alertContextBlock.data, ?_⟩
      simp only [hfq, if_true]
      exact decomp_append (decomp_append (decomp_append hv _) _) _

theorem renderTurn_some {t : Turn} (hS : pyStrip t.text ≠ "") :
    renderTurn t
      = some ((if t.role == "user" then "Person" else "Piribot") ++ ": " ++ pyStrip t.text) := by
  simp only [renderTurn]
  rw [show (pyStrip t.text == "") = false from by rw [beq_eq_false_iff_ne]; exact hS]
  rfl

theorem rendered_facts {t : Turn} {s : String} (hr : renderTurn t = some s)
    (hN : noNlStr t.text = true) :
    noNl s.data = true ∧ normSeg s.data = s.data ∧ s.data ≠ [] := by
  simp only [renderTurn] at hr
  by_cases he : (pyStrip t.text == "") = true
  · rw [he] at hr
    simp at hr
  · have he' : (pyStrip t.text == "") = false := by simpa using he
    rw [he'] at hr
    simp only [Bool.false_eq_true, if_false, Option.some.injEq] at hr
    subst hr
    have hstrip : noNl (pyStrip t.text).data = true := noNl_stripChars hN
    cases hro : (t.role == "user") <;>
      simp only [hro, Bool.false_eq_true, if_false, if_true] <;>
      refine ⟨?_, ?_, ?_⟩
    · rw [String.data_append, String.data_append]
      exact noNl_append (noNl_append (by decide) (by decide)) hstrip
    · rw [String.data_append, String.data_append]
      exact @normSeg_of_mem _ 'P'
        (List.mem_append.mpr (Or.inl (List.mem_append.mpr (Or.inl (by decide)))))
        (by decide)
    · rw [String.data_append]
      simp [String.data_append]
    · rw [String.data_append, String.data_append]
      exact noNl_append (noNl_append (by decide) (by decide)) hstrip
    · rw [String.data_append, String.data_append]
      exact @normSeg_of_mem _ 'P'
        (List.mem_append.mpr (Or.inl (List.mem_append.mpr (Or.inl (by decide)))))
        (by decide)
    · rw [String.data_append]
      simp [String.data_append]

theorem historyLines_ne_nil {h : List Turn} (hne : h ≠ [])
    (hent : ∀ t ∈ lastN 6 h, noNlStr t.text = true ∧ pyStrip t.text ≠ "") :
    historyLines h ≠ [] := by
  have h6 : lastN 6 h ≠ [] := lastN_ne_nil (by omega) hne
  obtain ⟨t0, ht0⟩ := List.exists_mem_of_ne_nil _ h6
  intro hcontra
  unfold historyLines at hcontra
  have := List.filterMap_eq_nil_iff.mp hcontra t0 ht0
  rw [renderTurn_some (hent t0 ht0).2] at this
  cases this

theorem historyLines_facts {h : List Turn}
    (hent : ∀ t ∈ lastN 6 h, noNlStr t.text = true ∧ pyStrip t.text ≠ "") :
    ∀ s ∈ historyLines h, noNl s.data = true ∧ normSeg s.data = s.data ∧ s.data ≠ [] := by
  intro s hs
  unfold historyLines at hs
  obtain ⟨t, ht, hrt⟩ := List.mem_filterMap.mp hs
  exact rendered_facts hrt (hent t ht).1


theorem normJoin_cons_nl (b : List Char) : normJoin ('\n' :: b) = '\n' :: normJoin b := by
  have h := normJoin_append_nl [] b
  simpa [normJoin_nil] using h

theorem normSeg_kept_exists {l : List Char} (hne : l ≠ []) (hk : normSeg l = l) :
    ∃ c ∈ l, isIndentChar c = false := by
  by_cases hall : l.all isIndentChar = true
  · exfalso
    unfold normSeg at hk
    rw [hall] at hk
    simp [List.isEmpty_iff, hne] at hk
  · rw [Bool.not_eq_true, List.all_eq_false] at hall
    obtain ⟨c, hc, hcf⟩ := hall
    exact ⟨c, hc, by simpa using hcf⟩

theorem joinNl_cons_ne_nil {x : List Char} (hx : x ≠ []) (xs : List (List Char)) :
    joinNl (x :: xs) ≠ [] := by
  cases xs with
  | nil => simpa [joinNl] using hx
  | cons y ys => simp [joinNl]

theorem noNl_langStr (lang : Lang) : noNl (langStr lang).data = true := by
  cases lang <;> decide

theorem normJoin_indent_block {ls : List String} (h0 : ls ≠ [])
    (hfacts : ∀ s ∈ ls, noNl s.data = true ∧ normSeg s.data = s.data ∧ s.data ≠ []) :
    normJoin (("            " : String).data ++ (joinLines ls).data)
      = ("            " : String).data ++ (joinLines ls).data := by
  obtain ⟨l0, lrest, rfl⟩ : ∃ l0 lrest, ls = l0 :: lrest := by
    cases ls with
    | nil => exact absurd rfl h0
    | cons a as => exact ⟨a, as, rfl⟩
  rw [joinLines_data, List.map_cons]
  have hmem : ∀ l ∈ List.map String.data lrest, noNl l = true := by
    intro l hl
    obtain ⟨t, ht, rfl⟩ := List.mem_map.mp hl
    exact (hfacts t (by simp [ht])).1
  have hkeep : ∀ l ∈ List.map String.data lrest, normSeg l = l := by
    intro l hl
    obtain ⟨t, ht, rfl⟩ := List.mem_map.mp hl
    exact (hfacts t (by simp [ht])).2.1
  have hk0 : normSeg (("            " : String).data ++ l0.data)
      = ("            " : String).data ++ l0.data := by
    obtain ⟨c, hc, hcf⟩ :=
      normSeg_kept_exists (hfacts l0 (by simp)).2.2 (hfacts l0 (by simp)).2.1
    exact normSeg_of_mem (List.mem_append.mpr (Or.inr hc)) hcf
  exact normJoin_prepend_join (by decide) (hfacts l0 (by simp)).1 hmem hk0 hkeep

theorem contents_dedent (v rest : List Char) :
    dedentChars ('\n' :: ((("            " : String).data ++ eresLine.data)
        ++ '\n' :: (tuLine.data ++ '\n' :: (v ++ '\n' :: rest))))
      = '\n' :: ((("            " : String).data ++ eresLine.data)
        ++ '\n' :: (tuLine.data ++ '\n' :: (normJoin v ++ '\n' :: normJoin rest))) := by
  have hsp1 : splitNl ('\n' :: ((("            " : String).data ++ eresLine.data)
      ++ '\n' :: (tuLine.data ++ '\n' :: (v ++ '\n' :: rest))))
      = [[]] ++ (splitNl (("            " : String).data ++ eresLine.data)
          ++ ([tuLine.data] ++ splitNl (v ++ '\n' :: rest))) := by
    show splitNl ([] ++ '\n' :: ((("            " : String).data ++ eresLine.data)
      ++ '\n' :: (tuLine.data ++ '\n' :: (v ++ '\n' :: rest)))) = _
    rw [splitNl_append_nl, splitNl_append_nl, splitNl_append_nl,
      splitNl_of_noNl (by decide : noNl tuLine.data = true)]
    rfl
  have hmargin : dedentMargin ((splitNl ('\n' :: ((("            " : String).data
      ++ eresLine.data) ++ '\n' :: (tuLine.data ++ '\n' :: (v ++ '\n' :: rest))))).map normSeg)
      = [] := by
    refine @dedentMargin_of_mem _ tuLine.data ?_ (by decide) (by decide)
    rw [hsp1]
    apply List.mem_map.mpr
    refine ⟨tuLine.data, ?_, by decide⟩
    simp
  rw [dedentChars_of_margin_nil hmargin]
  show normJoin ([] ++ '\n' :: _) = _
  rw [normJoin_append_nl, normJoin_append_nl, normJoin_append_nl, normJoin_append_nl]
  rw [normJoin_nil,
    normJoin_single_kept (by decide) (by decide :
      normSeg (("            " : String).data ++ eresLine.data)
        = ("            " : String).data ++ eresLine.data),
    normJoin_single_kept (by decide) (by decide : normSeg tuLine.data = tuLine.data)]
  rfl

theorem contents_strip {G A : List Char} {d : Char}
    (hd : isPySpace d = false) (hG : G = A ++ [d]) :
    stripChars ('\n' :: ((("            " : String).data ++ eresLine.data)
        ++ '\n' :: (G ++ ['\n'])))
      = eresLine.data ++ '\n' :: G := by
  subst hG
  unfold stripChars
  have h1 : ('\n' :: ((("            " : String).data ++ eresLine.data)
      ++ '\n' :: ((A ++ [d]) ++ ['\n'])))
      = ('\n' :: ("            " : String).data)
        ++ (eresLine.data ++ '\n' :: ((A ++ [d]) ++ ['\n'])) := by
    simp
  rw [h1, dropWhile_ws_append (by decide)]
  have hE : eresLine.data = 'E' :: eresLine.data.tail := by decide
  rw [hE, List.cons_append,
    dropWhile_ws_cons_of_neg (by decide : isPySpace 'E' = false), ← List.cons_append, ← hE]
  have h2 : eresLine.data ++ '\n' :: ((A ++ [d]) ++ ['\n'])
      = ((eresLine.data ++ '\n' :: A) ++ [d]) ++ ['\n'] := by
    simp
  rw [h2, rstripChars_append_ws (by rfl), rstripChars_append_nonws hd]
  simp


theorem buildContents_hist_tail (faq : FaqConfig) (m : String) (lang : Lang) (hint : Bool)
    (h : List Turn) (hne : h ≠ [])
    (hent : ∀ t ∈ lastN 6 h, noNlStr t.text = true ∧ pyStrip t.text ≠ "")
    (hm1 : noNlStr m = true) (hm2 : pyStrip m = m) (hm3 : m ≠ "") :
    ∃ P, buildContents faq m lang hint h = P ++ promptHistoryTail h lang m := by
  obtain ⟨⟨cm, tm, hmc, hmw⟩, Am, dm, hma, hdw⟩ := pyStrip_facts hm2 hm3
  have hnlm : noNl m.data = true := hm1
  have hlsne := historyLines_ne_nil hne hent
  have hlsfacts := historyLines_facts hent
  obtain ⟨sv, hsv⟩ := system_prompt_decomp lang hint (_build_faq_text faq lang)
  have hstr : ∀ s : String, (pyStrip s).data = stripChars s.data := fun _ => rfl
  have hded : ∀ s : String, (pydedent s).data = dedentChars s.data := fun _ => rfl
  have hbne : (joinLines (historyLines h) == "") = false := by
    rw [beq_eq_false_iff_ne]
    intro hcontra
    obtain ⟨l0, lrest, hls⟩ : ∃ a as, historyLines h = a :: as := by
      cases hq : historyLines h with
      | nil => exact absurd hq hlsne
      | cons a as => exact ⟨a, as, rfl⟩
    have hd0 := congrArg String.data hcontra
    rw [joinLines_data, hls] at hd0
    simp only [List.map_cons] at hd0
    exact joinNl_cons_ne_nil (hlsfacts l0 (by rw [hls]; simp)).2.2 _ hd0
  have hTpre : ("\n            " : String).data = '\n' :: ("            " : String).data := by decide
  have hT1 : ("\n\n            Historial breve de la conversación:\n            " : String).data
      = '\n' :: ('\n' :: (("            " : String).data ++ (("Historial breve de la conversación:" : String).data ++ ('\n' :: ("            " : String).data)))) := by decide
  have hT2 : ("\n\n            Mensaje actual de la persona embarazada (idioma: " : String).data
      = '\n' :: ('\n' :: (("            " : String).data ++ ("Mensaje actual de la persona embarazada (idioma: " : String).data)) := by decide
  have hT3 : ("):\n\n            " : String).data = ("):" : String).data ++ ('\n' :: ('\n' :: ("            " : String).data)) := by decide
  have hk1 : normJoin (("            " : String).data ++ ("Historial breve de la conversación:" : String).data) = ("            " : String).data ++ ("Historial breve de la conversación:" : String).data :=
    normJoin_single_kept (by decide) (by decide)
  have hk2 := normJoin_indent_block hlsne hlsfacts
  have hk3 : normJoin ((("            " : String).data ++ ("Mensaje actual de la persona embarazada (idioma: " : String).data) ++ ((langStr lang).data ++ ("):" : String).data)) = ((("            " : String).data ++ ("Mensaje actual de la persona embarazada (idioma: " : String).data) ++ ((langStr lang).data ++ ("):" : String).data)) := by
    apply normJoin_single_kept
    · exact noNl_append (noNl_append (by decide) (by decide))
        (noNl_append (noNl_langStr lang) (by decide))
    · exact @normSeg_of_mem _ 'M'
        (List.mem_append.mpr (Or.inl (List.mem_append.mpr (Or.inr (by decide))))) (by decide)
  have hk4 : normJoin (("            " : String).data ++ m.data) = ("            " : String).data ++ m.data := by
    apply normJoin_single_kept (noNl_append (by decide) hnlm)
    rw [hmc]
    exact normSeg_of_head_nonws hmw
  have hk5 : normJoin ("            " : String).data = [] := by
    rw [normJoin_of_noNl (by decide)]
    decide
  have hNJ : normJoin ('\n' :: ((("            " : String).data ++ ("Historial breve de la conversación:" : String).data) ++ '\n' :: ((("            " : String).data ++ (joinLines (historyLines h)).data) ++ '\n' :: ('\n' :: (((("            " : String).data ++ ("Mensaje actual de la persona embarazada (idioma: " : String).data) ++ ((langStr lang).data ++ ("):" : String).data)) ++ '\n' :: ('\n' :: ((("            " : String).data ++ m.data) ++ '\n' :: ("            " : String).data))))))) = ('\n' :: ((("            " : String).data ++ ("Historial breve de la conversación:" : String).data) ++ '\n' :: ((("            " : String).data ++ (joinLines (historyLines h)).data) ++ '\n' :: ('\n' :: (((("            " : String).data ++ ("Mensaje actual de la persona embarazada (idioma: " : String).data) ++ ((langStr lang).data ++ ("):" : String).data)) ++ '\n' :: ('\n' :: (("            " : String).data ++ m.data))))))) ++ ['\n'] := by
    rw [normJoin_cons_nl, normJoin_append_nl, hk1, normJoin_append_nl, hk2,
      normJoin_cons_nl, normJoin_append_nl, hk3, normJoin_cons_nl, normJoin_append_nl,
      hk4, hk5]
    simp
  have hRdata : (("\n            " ++ build_system_prompt lang hint (_build_faq_text faq lang)
      ++ "\n\n            Historial breve de la conversación:\n            "
      ++ joinLines (historyLines h)
      ++ "\n\n            Mensaje actual de la persona embarazada (idioma: " ++ langStr lang
      ++ "):\n\n            " ++ m ++ "\n            ") : String).data
      = '\n' :: ((("            " : String).data ++ eresLine.data) ++ '\n' :: (tuLine.data ++ '\n' :: (sv ++ '\n' :: ('\n' :: ((("            " : String).data ++ ("Historial breve de la conversación:" : String).data) ++ '\n' :: ((("            " : String).data ++ (joinLines (historyLines h)).data) ++ '\n' :: ('\n' :: (((("            " : String).data ++ ("Mensaje actual de la persona embarazada (idioma: " : String).data) ++ ((langStr lang).data ++ ("):" : String).data)) ++ '\n' :: ('\n' :: ((("            " : String).data ++ m.data) ++ '\n' :: ("            " : String).data)))))))))) := by
    simp only [String.data_append, hsv, hTpre, hT1, hT2, hT3]
    simp [List.append_assoc]
  have hred : buildContents faq m lang hint h = pyStrip (pydedent ("\n            " ++ build_system_prompt lang hint (_build_faq_text faq lang)
      ++ "\n\n            Historial breve de la conversación:\n            "
      ++ joinLines (historyLines h)
      ++ "\n\n            Mensaje actual de la persona embarazada (idioma: " ++ langStr lang
      ++ "):\n\n            " ++ m ++ "\n            ")) := by
    simp only [buildContents]
    rw [hbne]
    rfl
  have hGA : (tuLine.data ++ '\n' :: (normJoin sv ++ '\n' :: ('\n' :: ((("            " : String).data ++ ("Historial breve de la conversación:" : String).data) ++ '\n' :: ((("            " : String).data ++ (joinLines (historyLines h)).data) ++ '\n' :: ('\n' :: (((("            " : String).data ++ ("Mensaje actual de la persona embarazada (idioma: " : String).data) ++ ((langStr lang).data ++ ("):" : String).data)) ++ '\n' :: ('\n' :: (("            " : String).data ++ m.data)))))))))
      = (tuLine.data ++ '\n' :: (normJoin sv ++ '\n' :: ('\n' :: ((("            " : String).data ++ ("Historial breve de la conversación:" : String).data) ++ '\n' :: ((("            " : String).data ++ (joinLines (historyLines h)).data) ++ '\n' :: ('\n' :: (((("            " : String).data ++ ("Mensaje actual de la persona embarazada (idioma: " : String).data) ++ ((langStr lang).data ++ ("):" : String).data)) ++ '\n' :: ('\n' :: (("            " : String).data ++ Am))))))))) ++ [dm] := by
    rw [hma]
    simp
  refine ⟨⟨eresLine.data ++ '\n' :: (tuLine.data ++ '\n' :: normJoin sv)⟩, ?_⟩
  rw [hred]
  apply String.ext
  rw [String.data_append, hstr, hded, hRdata, contents_dedent, hNJ]
  have hshape : (tuLine.data ++ '\n' :: (normJoin sv ++ '\n' :: (('\n' :: ((("            " : String).data ++ ("Historial breve de la conversación:" : String).data) ++ '\n' :: ((("            " : String).data ++ (joinLines (historyLines h)).data) ++ '\n' :: ('\n' :: (((("            " : String).data ++ ("Mensaje actual de la persona embarazada (idioma: " : String).data) ++ ((langStr lang).data ++ ("):" : String).data)) ++ '\n' :: ('\n' :: (("            " : String).data ++ m.data))))))) ++ ['\n'])))
      = (tuLine.data ++ '\n' :: (normJoin sv ++ '\n' :: ('\n' :: ((("            " : String).data ++ ("Historial breve de la conversación:" : String).data) ++ '\n' :: ((("            " : String).data ++ (joinLines (historyLines h)).data) ++ '\n' :: ('\n' :: (((("            " : String).data ++ ("Mensaje actual de la persona embarazada (idioma: " : String).data) ++ ((langStr lang).data ++ ("):" : String).data)) ++ '\n' :: ('\n' :: (("            " : String).data ++ m.data))))))))) ++ ['\n'] := by
    simp
  rw [hshape, contents_strip hdw hGA]
  simp only [promptHistoryTail, String.data_append, hT1, hT2, hT3]
  simp [List.append_assoc]


theorem buildContents_empty_tail (faq : FaqConfig) (m : String) (lang : Lang) (hint : Bool)
    (hm1 : noNlStr m = true) (hm2 : pyStrip m = m) (hm3 : m ≠ "") :
    ∃ P, buildContents faq m lang hint [] = P ++ promptMessageTail lang m := by
  obtain ⟨⟨cm, tm, hmc, hmw⟩, Am, dm, hma, hdw⟩ := pyStrip_facts hm2 hm3
  have hnlm : noNl m.data = true := hm1
  obtain ⟨sv, hsv⟩ := system_prompt_decomp lang hint (_build_faq_text faq lang)
  have hstr : ∀ s : String, (pyStrip s).data = stripChars s.data := fun _ => rfl
  have hded : ∀ s : String, (pydedent s).data = dedentChars s.data := fun _ => rfl
  have hTpre : ("\n            " : String).data = '\n' :: ("            " : String).data := by decide
  have hT2 : ("\n\n            Mensaje de la persona embarazada (idioma: " : String).data
      = '\n' :: ('\n' :: (("            " : String).data ++ ("Mensaje de la persona embarazada (idioma: " : String).data)) := by decide
  have hT3 : ("):\n\n            " : String).data = ("):" : String).data ++ ('\n' :: ('\n' :: ("            " : String).data)) := by decide
  have hk3 : normJoin ((("            " : String).data ++ ("Mensaje de la persona embarazada (idioma: " : String).data) ++ ((langStr lang).data ++ ("):" : String).data)) = ((("            " : String).data ++ ("Mensaje de la persona embarazada (idioma: " : String).data) ++ ((langStr lang).data ++ ("):" : String).data)) := by
    apply normJoin_single_kept
    · exact noNl_append (noNl_append (by decide) (by decide))
        (noNl_append (noNl_langStr lang) (by decide))
    · exact @normSeg_of_mem _ 'M'
        (List.mem_append.mpr (Or.inl (List.mem_append.mpr (Or.inr (by decide))))) (by decide)
  have hk4 : normJoin (("            " : String).data ++ m.data) = ("            " : String).data ++ m.data := by
    apply normJoin_single_kept (noNl_append (by decide) hnlm)
    rw [hmc]
    exact normSeg_of_head_nonws hmw
  have hk5 : normJoin ("            " : String).data = [] := by
    rw [normJoin_of_noNl (by decide)]
    decide
  have hNJ : normJoin ('\n' :: (((("            " : String).data ++ ("Mensaje de la persona embarazada (idioma: " : String).data) ++ ((langStr lang).data ++ ("):" : String).data)) ++ '\n' :: ('\n' :: ((("            " : String).data ++ m.data) ++ '\n' :: ("            " : String).data)))) = ('\n' :: (((("            " : String).data ++ ("Mensaje de la persona embarazada (idioma: " : String).data) ++ ((langStr lang).data ++ ("):" : String).data)) ++ '\n' :: ('\n' :: (("            " : String).data ++ m.data)))) ++ ['\n'] := by
    rw [normJoin_cons_nl, normJoin_append_nl, hk3, normJoin_cons_nl, normJoin_append_nl,
      hk4, hk5]
    simp
  have hRdata : (("\n            " ++ build_system_prompt lang hint (_build_faq_text faq lang)
      ++ "\n\n            Mensaje de la persona embarazada (idioma: " ++ langStr lang
      ++ "):\n\n            " ++ m ++ "\n            ") : String).data
      = '\n' :: ((("            " : String).data ++ eresLine.data) ++ '\n' :: (tuLine.data ++ '\n' :: (sv ++ '\n' :: ('\n' :: (((("            " : String).data ++ ("Mensaje de la persona embarazada (idioma: " : String).data) ++ ((langStr lang).data ++ ("):" : String).data)) ++ '\n' :: ('\n' :: ((("            " : String).data ++ m.data) ++ '\n' :: ("            " : String).data))))))) := by
    simp only [String.data_append, hsv, hTpre, hT2, hT3]
    simp [List.append_assoc]
  have hred : buildContents faq m lang hint [] = pyStrip (pydedent ("\n            " ++ build_system_prompt lang hint (_build_faq_text faq lang)
      ++ "\n\n            Mensaje de la persona embarazada (idioma: " ++ langStr lang
      ++ "):\n\n            " ++ m ++ "\n            ")) := by
    simp only [buildContents]
    rw [show (joinLines (historyLines ([] : List Turn)) == "") = true from by decide]
    rfl
  have hGA : (tuLine.data ++ '\n' :: (normJoin sv ++ '\n' :: ('\n' :: (((("            " : String).data ++ ("Mensaje de la persona embarazada (idioma: " : String).data) ++ ((langStr lang).data ++ ("):" : String).data)) ++ '\n' :: ('\n' :: (("            " : String).data ++ m.data))))))
      = (tuLine.data ++ '\n' :: (normJoin sv ++ '\n' :: ('\n' :: (((("            " : String).data ++ ("Mensaje de la persona embarazada (idioma: " : String).data) ++ ((langStr lang).data ++ ("):" : String).data)) ++ '\n' :: ('\n' :: (("            " : String).data ++ Am)))))) ++ [dm] := by
    rw [hma]
    simp
  refine ⟨⟨eresLine.data ++ '\n' :: (tuLine.data ++ '\n' :: normJoin sv)⟩, ?_⟩
  rw [hred]
  apply String.ext
  rw [String.data_append, hstr, hded, hRdata, contents_dedent, hNJ]
  have hshape : (tuLine.data ++ '\n' :: (normJoin sv ++ '\n' :: (('\n' :: (((("            " : String).data ++ ("Mensaje de la persona embarazada (idioma: " : String).data) ++ ((langStr lang).data ++ ("):" : String).data)) ++ '\n' :: ('\n' :: (("            " : String).data ++ m.data)))) ++ ['\n'])))
      = (tuLine.data ++ '\n' :: (normJoin sv ++ '\n' :: ('\n' :: (((("            " : String).data ++ ("Mensaje de la persona embarazada (idioma: " : String).data) ++ ((langStr lang).data ++ ("):" : String).data)) ++ '\n' :: ('\n' :: (("            " : String).data ++ m.data)))))) ++ ['\n'] := by
    simp
  rw [hshape, contents_strip hdw hGA]
  simp only [promptMessageTail, String.data_append, hT2, hT3]
  simp [List.append_assoc]

/-- C6: when the history is non-empty (and its recent entries and the
current message are single-line, non-blank texts), the composed prompt
ends with the history header, the last six history entries rendered as
labeled lines ("Person: …" / "Piribot: …") in oldest-first order, and the
current message as the final line of a section labeled with the target
language code; when the history is empty that history block is omitted
entirely and the prompt ends with just the message section. -/
theorem c6_prompt_tail :
    (∀ (faq : FaqConfig) (m : String) (lang : Lang) (hint : Bool) (h : List Turn),
      h ≠ [] →
      (∀ t ∈ lastN 6 h, noNlStr t.text = true ∧ pyStrip t.text ≠ "") →
      noNlStr m = true → pyStrip m = m → m ≠ "" →
      ∃ P, buildContents faq m lang hint h = P ++ promptHistoryTail h lang m)
    ∧ (∀ (faq : FaqConfig) (m : String) (lang : Lang) (hint : Bool),
      noNlStr m = true → pyStrip m = m → m ≠ "" →
      ∃ P, buildContents faq m lang hint [] = P ++ promptMessageTail lang m) :=
  ⟨fun faq m lang hint h hne hent hm1 hm2 hm3 =>
      buildContents_hist_tail faq m lang hint h hne hent hm1 hm2 hm3,
   fun faq m lang hint hm1 hm2 hm3 =>
      buildContents_empty_tail faq m lang hint hm1 hm2 hm3⟩

theorem c6_witness :
    (∃ P, buildContents [] "Tengo una duda" Lang.es false
        [⟨"user", "Hola"⟩, ⟨"assistant", "Buenos dias"⟩]
      = P ++ promptHistoryTail [⟨"user", "Hola"⟩, ⟨"assistant", "Buenos dias"⟩] Lang.es
          "Tengo una duda")
    ∧ (∃ P, buildContents [] "Tengo una duda" Lang.es false []
      = P ++ promptMessageTail Lang.es "Tengo una duda") :=
  ⟨c6_prompt_tail.1 [] "Tengo una duda" Lang.es false
      [⟨"user", "Hola"⟩, ⟨"assistant", "Buenos dias"⟩]
      (by decide) (by decide) (by decide) (by decide) (by decide),
   c6_prompt_tail.2 [] "Tengo una duda" Lang.es false (by decide) (by decide) (by decide)⟩

end Piribot
